import Mathlib

/-!
Verification development for the gov RFQ decision engine.

The Python sources are shallowly embedded: Python dictionaries become
association lists over a `PyVal` value type, Python strings become Lean
strings, machine floats in the price pipeline are modelled by exact
rationals, and fallible operations (such as `int(...)` coercion) return
`Option`.  Regular-expression scanning is embedded through a small
backtracking matcher whose combinators mirror the individual regex
constructs used by the source patterns.
-/

set_option maxRecDepth 4096

/-- Model of a Python value as it appears in the JSON-shaped payloads the
decision pipeline passes around. -/
inductive PyVal where
  | vnone : PyVal
  | vbool : Bool → PyVal
  | vint : Int → PyVal
  | vstr : String → PyVal
  | vlist : List PyVal → PyVal
  | vdict : List (String × PyVal) → PyVal
deriving Repr

/-- Decidable equality on `PyVal`, mirroring Python `==` on these shapes. -/
def PyVal.beq : PyVal → PyVal → Bool
  | .vnone, .vnone => true
  | .vbool a, .vbool b => a == b
  | .vint a, .vint b => a == b
  | .vstr a, .vstr b => a == b
  | .vlist a, .vlist b => beqList a b
  | .vdict a, .vdict b => beqDict a b
  | _, _ => false
where
  beqList : List PyVal → List PyVal → Bool
    | [], [] => true
    | x :: xs, y :: ys => PyVal.beq x y && beqList xs ys
    | _, _ => false
  beqDict : List (String × PyVal) → List (String × PyVal) → Bool
    | [], [] => true
    | (k1, v1) :: xs, (k2, v2) :: ys => k1 == k2 && PyVal.beq v1 v2 && beqDict xs ys
    | _, _ => false

mutual

theorem PyVal.beq_refl : (v : PyVal) → PyVal.beq v v = true
  | .vnone => rfl
  | .vbool b => by simp [PyVal.beq]
  | .vint n => by simp [PyVal.beq]
  | .vstr s => by simp [PyVal.beq]
  | .vlist l => by simp [PyVal.beq, PyVal.beqList_refl l]
  | .vdict l => by simp [PyVal.beq, PyVal.beqDict_refl l]

theorem PyVal.beqList_refl : (l : List PyVal) → PyVal.beq.beqList l l = true
  | [] => rfl
  | x :: xs => by simp [PyVal.beq.beqList, PyVal.beq_refl x, PyVal.beqList_refl xs]

theorem PyVal.beqDict_refl : (l : List (String × PyVal)) → PyVal.beq.beqDict l l = true
  | [] => rfl
  | (k, v) :: xs => by simp [PyVal.beq.beqDict, PyVal.beq_refl v, PyVal.beqDict_refl xs]

end

mutual

theorem PyVal.eq_of_beq : {a b : PyVal} → PyVal.beq a b = true → a = b
  | .vnone, .vnone, _ => rfl
  | .vnone, .vbool _, h => by simp [PyVal.beq] at h
  | .vnone, .vint _, h => by simp [PyVal.beq] at h
  | .vnone, .vstr _, h => by simp [PyVal.beq] at h
  | .vnone, .vlist _, h => by simp [PyVal.beq] at h
  | .vnone, .vdict _, h => by simp [PyVal.beq] at h
  | .vbool a, b, h => by
      cases b <;> simp [PyVal.beq] at h
      simp [h]
  | .vint a, b, h => by
      cases b <;> simp [PyVal.beq] at h
      simp [h]
  | .vstr a, b, h => by
      cases b <;> simp [PyVal.beq] at h
      simp [h]
  | .vlist a, .vnone, h => by simp [PyVal.beq] at h
  | .vlist a, .vbool _, h => by simp [PyVal.beq] at h
  | .vlist a, .vint _, h => by simp [PyVal.beq] at h
  | .vlist a, .vstr _, h => by simp [PyVal.beq] at h
  | .vlist a, .vdict _, h => by simp [PyVal.beq] at h
  | .vlist a, .vlist b, h =>
      congrArg PyVal.vlist (PyVal.eqList_of_beq (by simpa [PyVal.beq] using h))
  | .vdict a, .vnone, h => by simp [PyVal.beq] at h
  | .vdict a, .vbool _, h => by simp [PyVal.beq] at h
  | .vdict a, .vint _, h => by simp [PyVal.beq] at h
  | .vdict a, .vstr _, h => by simp [PyVal.beq] at h
  | .vdict a, .vlist _, h => by simp [PyVal.beq] at h
  | .vdict a, .vdict b, h =>
      congrArg PyVal.vdict (PyVal.eqDict_of_beq (by simpa [PyVal.beq] using h))

theorem PyVal.eqList_of_beq : {a b : List PyVal} → PyVal.beq.beqList a b = true → a = b
  | [], [], _ => rfl
  | [], _ :: _, h => by simp [PyVal.beq.beqList] at h
  | _ :: _, [], h => by simp [PyVal.beq.beqList] at h
  | x :: xs, y :: ys, h => by
      simp only [PyVal.beq.beqList, Bool.and_eq_true] at h
      rw [PyVal.eq_of_beq h.1, PyVal.eqList_of_beq h.2]

theorem PyVal.eqDict_of_beq :
    {a b : List (String × PyVal)} → PyVal.beq.beqDict a b = true → a = b
  | [], [], _ => rfl
  | [], _ :: _, h => by simp [PyVal.beq.beqDict] at h
  | _ :: _, [], h => by simp [PyVal.beq.beqDict] at h
  | (k1, v1) :: xs, (k2, v2) :: ys, h => by
      simp only [PyVal.beq.beqDict, Bool.and_eq_true] at h
      obtain ⟨⟨hk, hv⟩, hrest⟩ := h
      rw [beq_iff_eq.mp hk, PyVal.eq_of_beq hv, PyVal.eqDict_of_beq hrest]

end

instance : DecidableEq PyVal := fun a b =>
  if h : PyVal.beq a b then
    .isTrue (PyVal.eq_of_beq h)
  else
    .isFalse (fun he => h (he ▸ PyVal.beq_refl a))

/-- Python truthiness for the modelled value shapes. -/
def pyTruthy : PyVal → Bool
  | .vnone => false
  | .vbool b => b
  | .vint n => n != 0
  | .vstr s => s != ""
  | .vlist l => !l.isEmpty
  | .vdict l => !l.isEmpty

/-- Python dictionaries that the pipeline passes around. -/
abbrev PyDict := List (String × PyVal)

/-- Lookup of a key in a dictionary (keys are unique in every dict the
sources build, so first-occurrence lookup is Python lookup). -/
def dictGet (d : PyDict) (k : String) : Option PyVal :=
  match d with
  | [] => none
  | (k2, v) :: rest => if k2 = k then some v else dictGet rest k

/-- Python `d.get(k)` and `d.get(k, default)`. -/
def pyGetD (d : PyDict) (k : String) (dflt : PyVal) : PyVal :=
  (dictGet d k).getD dflt

/-- Python `sep.join(parts)`. -/
def sjoin (sep : String) : List String → String
  | [] => ""
  | [x] => x
  | x :: xs => x ++ sep ++ sjoin sep xs

/-! String helpers mirroring the Python string operations used by the
sources. -/

/-- Python whitespace test (the characters matched by regex `\s` and
stripped by `str.strip()`). -/
def isPyWS (c : Char) : Bool :=
  c == ' ' || c == '\t' || c == '\n' || c == '\x0d' || c == '\x0b' || c == '\x0c'

/-- Word character test for regex `\w` and `\b`. -/
def isWordChar (c : Char) : Bool :=
  c.isAlphanum || c == '_'

/-- Python `str.lower()` (ASCII case folding, which is all the sources need). -/
def pyLower (s : String) : String :=
  String.mk (s.toList.map Char.toLower)

/-- Python `str.upper()`. -/
def pyUpper (s : String) : String :=
  String.mk (s.toList.map Char.toUpper)

/-- Python `str.strip(chars)` on an explicit character set. -/
def pyStripChars (set : List Char) (s : String) : String :=
  let keep := fun c => !set.contains c
  String.mk (((s.toList.dropWhile (fun c => !keep c)).reverse.dropWhile
    (fun c => !keep c)).reverse)

/-- Python `str.strip()` (whitespace). -/
def pyStrip (s : String) : String :=
  pyStripChars [' ', '\t', '\n', '\x0d', '\x0b', '\x0c'] s

/-- Does the pattern occur at the head of the character list? -/
def startsWithChars : List Char → List Char → Bool
  | [], _ => true
  | _ :: _, [] => false
  | p :: ps, c :: cs => p == c && startsWithChars ps cs

/-- Python `str.find` as an optional index (None in place of -1). -/
def findSubIdx (pat : List Char) : List Char → Option Nat
  | [] => if pat.isEmpty then some 0 else none
  | c :: cs =>
      if startsWithChars pat (c :: cs) then some 0
      else (findSubIdx pat cs).map (· + 1)

/-- Python `needle in haystack` on strings. -/
def containsSub (haystack needle : String) : Bool :=
  (findSubIdx needle.toList haystack.toList).isSome

/-- Helper for `pySplitlines`: accumulate characters until a line break. -/
def splitLinesAux : List Char → List Char → List (List Char)
  | acc, [] => [acc.reverse]
  | acc, '\x0d' :: '\n' :: rest => acc.reverse :: splitLinesAux [] rest
  | acc, '\x0d' :: rest => acc.reverse :: splitLinesAux [] rest
  | acc, '\n' :: rest => acc.reverse :: splitLinesAux [] rest
  | acc, c :: rest => splitLinesAux (c :: acc) rest

/-- Python `str.splitlines()`. -/
def pySplitlines (cs : List Char) : List (List Char) :=
  match cs with
  | [] => []
  | _ =>
      let segs := splitLinesAux [] cs
      if segs.getLast? = some [] then segs.dropLast else segs

/-! Mini regex engine.  A matcher is a backtracking scanner over a
character list that also carries the character just before the current
position (needed for word boundaries).  The result list enumerates the
alternatives in regex priority order, so the head of the list is the
match the Python `re` module would produce. -/

/-- A matcher consumes characters from the head of the list, threading
the previously consumed character, and yields every alternative in
priority order. -/
def RM (α : Type) : Type :=
  Option Char → List Char → List (α × Option Char × List Char)

instance : Monad RM where
  pure a := fun prev cs => [(a, prev, cs)]
  bind m f := fun prev cs => (m prev cs).flatMap fun (a, p2, cs2) => f a p2 cs2

/-- Matcher for a single character satisfying a class test. -/
def rmCls (p : Char → Bool) : RM Char := fun _ cs =>
  match cs with
  | [] => []
  | c :: rest => if p c then [(c, some c, rest)] else []

/-- Case-insensitive single character (the sources compile every pattern
with `re.IGNORECASE`). -/
def rmCharCI (c : Char) : RM Char :=
  rmCls (fun x => x.toLower == c.toLower)

/-- Case-insensitive literal string. -/
def rmLitChars : List Char → RM Unit
  | [] => pure ()
  | c :: rest => do
      let _ ← rmCharCI c
      rmLitChars rest

/-- Case-insensitive literal from a `String`. -/
def rmLit (s : String) : RM Unit :=
  rmLitChars s.toList

/-- All greedy alternatives of `p*` (longest first), with the matched
characters, the new previous character and the rest of the input. -/
def rmStarAlts (p : Char → Bool) (prev : Option Char) (cs : List Char) :
    List (List Char × Option Char × List Char) :=
  match cs with
  | [] => [([], prev, [])]
  | c :: rest =>
      if p c then
        ((rmStarAlts p (some c) rest).map fun (xs, pr, rm) => (c :: xs, pr, rm))
          ++ [([], prev, c :: rest)]
      else
        [([], prev, c :: rest)]

/-- Greedy `p*` over a character class. -/
def rmStar (p : Char → Bool) : RM (List Char) := fun prev cs =>
  rmStarAlts p prev cs

/-- Greedy `p+` over a character class. -/
def rmPlus (p : Char → Bool) : RM (List Char) := do
  let c ← rmCls p
  let rest ← rmStar p
  pure (c :: rest)

/-- Greedy bounded repetition `p{lo,hi}` over a character class. -/
def rmRepGreedy (p : Char → Bool) (lo hi : Nat) : RM (List Char) := fun prev cs =>
  (rmStarAlts p prev cs).filter fun (xs, _, _) => lo ≤ xs.length && xs.length ≤ hi

/-- Greedy unbounded repetition `p{lo,}` over a character class. -/
def rmRepAtLeast (p : Char → Bool) (lo : Nat) : RM (List Char) := fun prev cs =>
  (rmStarAlts p prev cs).filter fun (xs, _, _) => lo ≤ xs.length

/-- Lazy bounded repetition `p{lo,hi}?` over a character class (shortest
alternative first). -/
def rmRepLazy (p : Char → Bool) (lo hi : Nat) : RM (List Char) := fun prev cs =>
  ((rmStarAlts p prev cs).filter fun (xs, _, _) =>
    lo ≤ xs.length && xs.length ≤ hi).reverse

/-- Greedy option `m?`. -/
def rmOpt (m : RM α) : RM (Option α) := fun prev cs =>
  ((m prev cs).map fun (a, p2, r) => (some a, p2, r)) ++ [(none, prev, cs)]

/-- Ordered alternation. -/
def rmAlt (a b : RM α) : RM α := fun prev cs =>
  a prev cs ++ b prev cs

/-- Ordered alternation over a list of branches. -/
def rmAlts (ms : List (RM α)) : RM α := fun prev cs =>
  ms.flatMap fun m => m prev cs

/-- Word boundary `\b`. -/
def rmWordB : RM Unit := fun prev cs =>
  let before := match prev with
    | none => false
    | some c => isWordChar c
  let after := match cs.head? with
    | none => false
    | some c => isWordChar c
  if before != after then [((), prev, cs)] else []

/-- Run a matcher at successive start positions and return the first
(leftmost) match, mirroring `re.search`. -/
def rmSearchAux (m : RM α) (prev : Option Char) (cs : List Char) : Option α :=
  match (m prev cs).head? with
  | some (a, _, _) => some a
  | none =>
      match cs with
      | [] => none
      | c :: rest => rmSearchAux m (some c) rest

/-- Python `re.search(pattern, text)` returning the capture computed by
the matcher. -/
def rmSearch (m : RM α) (text : List Char) : Option α :=
  rmSearchAux m none text

/-- Python `re.finditer`, returning every non-overlapping match from
left to right.  The fuel argument keeps the recursion structural (every
step consumes at least one character, so `length + 1` fuel suffices). -/
def rmFindIterAux (m : RM α) : Nat → Option Char → List Char → List α
  | 0, _, _ => []
  | fuel + 1, prev, cs =>
      match (m prev cs).head? with
      | some (a, p2, rest) =>
          if rest.length < cs.length then a :: rmFindIterAux m fuel p2 rest
          else
            match cs with
            | [] => [a]
            | c :: r => a :: rmFindIterAux m fuel (some c) r
      | none =>
          match cs with
          | [] => []
          | c :: rest => rmFindIterAux m fuel (some c) rest

/-- Python `re.finditer` over a whole text. -/
def rmFindIter (m : RM α) (text : List Char) : List α :=
  rmFindIterAux m (text.length + 1) none text

/-! Embedding of `src/gov/decision/decision_merge.py`. -/

/-- Embeds `merge_decision` from `src/gov/decision/decision_merge.py`:
combine the deterministic engine output with advisory LLM guidance. -/
def merge_decision (engine_result llm_result : PyDict) : PyDict :=
  if pyTruthy (pyGetD engine_result "compliance_blocker" .vnone) then
    [("final_decision", .vstr "SKIP"), ("reason", .vstr "Compliance blocker detected")]
  else
    let engine_recommendation := pyGetD engine_result "recommendation" .vnone
    if engine_recommendation = PyVal.vstr "SKIP" ∧
        pyGetD llm_result "final_decision" .vnone = PyVal.vstr "HOLD" then
      llm_result
    else
      [("final_decision", engine_recommendation), ("reason", .vstr "Engine-determined outcome")]

/-- C1: merge_decision applies exactly, in order: (a) a truthy
compliance_blocker forces final_decision SKIP with reason "Compliance
blocker detected" regardless of the advisory input; (b) otherwise an
engine SKIP recommendation together with an advisory HOLD final_decision
yields the advisory payload verbatim; (c) otherwise the engine
recommendation is returned with reason "Engine-determined outcome", so
the advisory never overrides a non-SKIP engine decision. -/
theorem merge_decision_rules (e l : PyDict) :
    (pyTruthy (pyGetD e "compliance_blocker" .vnone) = true →
      merge_decision e l =
        [("final_decision", PyVal.vstr "SKIP"),
         ("reason", PyVal.vstr "Compliance blocker detected")]) ∧
    (pyTruthy (pyGetD e "compliance_blocker" .vnone) = false →
      pyGetD e "recommendation" .vnone = PyVal.vstr "SKIP" →
      pyGetD l "final_decision" .vnone = PyVal.vstr "HOLD" →
      merge_decision e l = l) ∧
    (pyTruthy (pyGetD e "compliance_blocker" .vnone) = false →
      ¬(pyGetD e "recommendation" .vnone = PyVal.vstr "SKIP" ∧
          pyGetD l "final_decision" .vnone = PyVal.vstr "HOLD") →
      merge_decision e l =
        [("final_decision", pyGetD e "recommendation" .vnone),
         ("reason", PyVal.vstr "Engine-determined outcome")]) := by
  refine ⟨fun hb => ?_, fun hb h1 h2 => ?_, fun hb hn => ?_⟩
  · simp [merge_decision, hb]
  · simp [merge_decision, hb, h1, h2]
  · simp only [merge_decision, hb, Bool.false_eq_true, if_false]
    rw [if_neg hn]

/-- Witness for C1: a concrete engine result with a compliance blocker is
forced to SKIP, via rule (a) of merge_decision_rules. -/
theorem merge_decision_rules_witness :
    merge_decision [("compliance_blocker", PyVal.vbool true)] [] =
      [("final_decision", PyVal.vstr "SKIP"),
       ("reason", PyVal.vstr "Compliance blocker detected")] :=
  (merge_decision_rules [("compliance_blocker", PyVal.vbool true)] []).1 (by decide)

/-! Embedding of the extraction helpers of `src/main.py`.  Every regex
pattern of the source is transcribed construct-by-construct into the
matcher combinators; all searches are case-insensitive, matching the
`re.IGNORECASE` flag used throughout the source. -/

/-- Literal that returns the characters it actually consumed, for use
inside capture groups (so captures keep the original casing). -/
def rmLitCharsK : List Char → RM (List Char)
  | [] => pure []
  | c :: rest => do
      let x ← rmCharCI c
      let xs ← rmLitCharsK rest
      pure (x :: xs)

/-- String version of `rmLitCharsK`. -/
def rmLitK (s : String) : RM (List Char) :=
  rmLitCharsK s.toList

/-- Class for regex `[:#\s]`. -/
def isColonHashWS (c : Char) : Bool :=
  c == ':' || c == '#' || isPyWS c

/-- Class for regex `[:\s]`. -/
def isColonWS (c : Char) : Bool :=
  c == ':' || isPyWS c

/-- Class for regex `[A-Z0-9-]` under IGNORECASE. -/
def isAlnumDash (c : Char) : Bool :=
  c.isAlphanum || c == '-'

/-- Class for regex `[0-9,]`. -/
def isDigitComma (c : Char) : Bool :=
  c.isDigit || c == ','

/-- Class for regex `[-\s]`. -/
def isDashWS (c : Char) : Bool :=
  c == '-' || isPyWS c

/-- Class for regex `[\w.-]`. -/
def isWordDotDash (c : Char) : Bool :=
  isWordChar c || c == '.' || c == '-'

/-- Pattern of `_extract_request_number`:
`1\.?\s*REQUEST\s+NO\.?[:#\s]*([A-Z0-9-]+)`. -/
def patRequestNo : RM String := do
  rmLit "1"
  let _ ← rmOpt (rmCharCI '.')
  let _ ← rmStar isPyWS
  rmLit "REQUEST"
  let _ ← rmPlus isPyWS
  rmLit "NO"
  let _ ← rmOpt (rmCharCI '.')
  let _ ← rmStar isColonHashWS
  let g ← rmPlus isAlnumDash
  pure (String.mk g)

/-- Pattern `(?:Solicitation|RFQ|Request for Quotation)[:#\s]+([A-Z0-9-]{5,})`. -/
def patSolicitation : RM String := do
  rmAlts [rmLit "Solicitation", rmLit "RFQ", rmLit "Request for Quotation"]
  let _ ← rmPlus isColonHashWS
  let g ← rmRepAtLeast isAlnumDash 5
  pure (String.mk g)

/-- Pattern `\b(SPE\w+-\d{2}-[A-Z]-\d{4,})\b`. -/
def patSPE : RM String := do
  rmWordB
  let s ← rmLitK "SPE"
  let a ← rmPlus isWordChar
  let d1 ← rmCharCI '-'
  let b ← rmRepGreedy Char.isDigit 2 2
  let d2 ← rmCharCI '-'
  let c ← rmCls Char.isAlpha
  let d3 ← rmCharCI '-'
  let d ← rmRepAtLeast Char.isDigit 4
  rmWordB
  pure (String.mk (s ++ a ++ [d1] ++ b ++ [d2] ++ [c] ++ [d3] ++ d))

/-- Pattern `\b(\d{4}-\d{2}-\d{3}-\d{4})\b`. -/
def patNsnDashed : RM String := do
  rmWordB
  let a ← rmRepGreedy Char.isDigit 4 4
  let d1 ← rmCharCI '-'
  let b ← rmRepGreedy Char.isDigit 2 2
  let d2 ← rmCharCI '-'
  let c ← rmRepGreedy Char.isDigit 3 3
  let d3 ← rmCharCI '-'
  let d ← rmRepGreedy Char.isDigit 4 4
  rmWordB
  pure (String.mk (a ++ [d1] ++ b ++ [d2] ++ c ++ [d3] ++ d))

/-- Pattern `NSN[:#\s]+(\d{4}-\d{2}-\d{3}-\d{4})`. -/
def patNsnLabeled : RM String := do
  rmLit "NSN"
  let _ ← rmPlus isColonHashWS
  let a ← rmRepGreedy Char.isDigit 4 4
  let d1 ← rmCharCI '-'
  let b ← rmRepGreedy Char.isDigit 2 2
  let d2 ← rmCharCI '-'
  let c ← rmRepGreedy Char.isDigit 3 3
  let d3 ← rmCharCI '-'
  let d ← rmRepGreedy Char.isDigit 4 4
  pure (String.mk (a ++ [d1] ++ b ++ [d2] ++ c ++ [d3] ++ d))

/-- Pattern `\b(\d{13})\b`. -/
def patNsn13 : RM String := do
  rmWordB
  let a ← rmRepGreedy Char.isDigit 13 13
  rmWordB
  pure (String.mk a)

/-- Tail shared by the CLIN/PRLI/Item quantity patterns:
`[\s\S]{0,350}?(?:QTY|QUANTITY)[:\s]+([0-9,]+)`. -/
def patQtyTail : RM String := do
  let _ ← rmRepLazy (fun _ => true) 0 350
  rmAlts [rmLit "QTY", rmLit "QUANTITY"]
  let _ ← rmPlus isColonWS
  let g ← rmPlus isDigitComma
  pure (String.mk g)

/-- Pattern `CLIN\s+0*0*1[\s\S]{0,350}?(?:QTY|QUANTITY)[:\s]+([0-9,]+)`. -/
def patClinQty : RM String := do
  rmLit "CLIN"
  let _ ← rmPlus isPyWS
  let _ ← rmStar (fun c => c == '0')
  let _ ← rmStar (fun c => c == '0')
  rmLit "1"
  patQtyTail

/-- Pattern `PRLI\s+0*0*1[\s\S]{0,350}?(?:QTY|QUANTITY)[:\s]+([0-9,]+)`. -/
def patPrliQty : RM String := do
  rmLit "PRLI"
  let _ ← rmPlus isPyWS
  let _ ← rmStar (fun c => c == '0')
  let _ ← rmStar (fun c => c == '0')
  rmLit "1"
  patQtyTail

/-- Pattern `Item\s*0001[\s\S]{0,350}?(?:QTY|QUANTITY)[:\s]+([0-9,]+)`. -/
def patItemQty : RM String := do
  rmLit "Item"
  let _ ← rmStar isPyWS
  rmLit "0001"
  patQtyTail

/-- Pattern `\bQUANTITY[:\s]+([0-9,]+)\b`. -/
def patQuantityLabeled : RM String := do
  rmWordB
  rmLit "QUANTITY"
  let _ ← rmPlus isColonWS
  let g ← rmPlus isDigitComma
  rmWordB
  pure (String.mk g)

/-- Window pattern of `_scan_line_window`:
`(?:QTY|QUANTITY)[:\s]+([0-9,]+)`. -/
def patQtyWindow : RM String := do
  rmAlts [rmLit "QTY", rmLit "QUANTITY"]
  let _ ← rmPlus isColonWS
  let g ← rmPlus isDigitComma
  pure (String.mk g)

/-- Line-header pattern `\bCLIN\s+0*0*1\b` (and the PRLI/Item variants). -/
def patClinHeader (label : String) (wsPlus : Bool) : RM Unit := do
  rmWordB
  rmLit label
  let _ ← if wsPlus then rmPlus isPyWS else rmStar isPyWS
  let _ ← rmStar (fun c => c == '0')
  let _ ← rmStar (fun c => c == '0')
  rmLit "1"
  rmWordB

/-- Pattern `(?:Quantity|QTY)[:#\s]+([0-9,]+)\b`. -/
def patQuantityFallback : RM String := do
  rmAlts [rmLit "Quantity", rmLit "QTY"]
  let _ ← rmPlus isColonHashWS
  let g ← rmPlus isDigitComma
  rmWordB
  pure (String.mk g)

/-- Pattern `\bQTY\s+([0-9,]+)\s+(?:EA|Each|PG|KT|BX)\b`. -/
def patQtyUnits : RM String := do
  rmWordB
  rmLit "QTY"
  let _ ← rmPlus isPyWS
  let g ← rmPlus isDigitComma
  let _ ← rmPlus isPyWS
  rmAlts [rmLit "EA", rmLit "Each", rmLit "PG", rmLit "KT", rmLit "BX"]
  rmWordB
  pure (String.mk g)

/-- Pattern `Required Delivery(?: Date)?[:#\s]+([^\n]+)`. -/
def patRequiredDelivery : RM String := do
  rmLit "Required Delivery"
  let _ ← rmOpt (rmLit " Date")
  let _ ← rmPlus isColonHashWS
  let g ← rmPlus (fun c => c != '\n')
  pure (String.mk g)

/-- Pattern `Delivery\s+within\s+([^\n]+)`. -/
def patDeliveryWithin : RM String := do
  rmLit "Delivery"
  let _ ← rmPlus isPyWS
  rmLit "within"
  let _ ← rmPlus isPyWS
  let g ← rmPlus (fun c => c != '\n')
  pure (String.mk g)

/-- Pattern `\b(\d{1,3}\s*days\s*(?:ARO|ADC|ADO))\b`. -/
def patDaysARO : RM String := do
  rmWordB
  let a ← rmRepGreedy Char.isDigit 1 3
  let w1 ← rmStar isPyWS
  let d ← rmLitK "days"
  let w2 ← rmStar isPyWS
  let u ← rmAlts [rmLitK "ARO", rmLitK "ADC", rmLitK "ADO"]
  rmWordB
  pure (String.mk (a ++ w1 ++ d ++ w2 ++ u))

/-- Pattern `Delivery\s+required[:\s]+(\d{1,3}\s*days\s*(?:ARO|ADC|ADO))`. -/
def patDeliveryRequired : RM String := do
  rmLit "Delivery"
  let _ ← rmPlus isPyWS
  rmLit "required"
  let _ ← rmPlus isColonWS
  let a ← rmRepGreedy Char.isDigit 1 3
  let w1 ← rmStar isPyWS
  let d ← rmLitK "days"
  let w2 ← rmStar isPyWS
  let u ← rmAlts [rmLitK "ARO", rmLitK "ADC", rmLitK "ADO"]
  pure (String.mk (a ++ w1 ++ d ++ w2 ++ u))

/-- Pattern `Need Ship Date[:#\s]+([0-9/]{6,10})`. -/
def patNeedShip : RM String := do
  rmLit "Need Ship Date"
  let _ ← rmPlus isColonHashWS
  let g ← rmRepGreedy (fun c => c.isDigit || c == '/') 6 10
  pure (String.mk g)

/-- Pattern `Original RDD[:#\s]+([0-9/]{6,10})`. -/
def patRdd : RM String := do
  rmLit "Original RDD"
  let _ ← rmPlus isColonHashWS
  let g ← rmRepGreedy (fun c => c.isDigit || c == '/') 6 10
  pure (String.mk g)

/-- Pattern `Set[- ]Aside[:#\s]+([^\n]+)`. -/
def patSetAsideLabeled : RM String := do
  rmLit "Set"
  let _ ← rmCls (fun c => c == '-' || c == ' ')
  rmLit "Aside"
  let _ ← rmPlus isColonHashWS
  let g ← rmPlus (fun c => c != '\n')
  pure (String.mk g)

/-- Pattern
`\b(Set ?Aside: ?(?:Small Business|Total SB|8\(a\)|SDVOSB|WOSB|HUBZone|Full and Open))`. -/
def patSetAsideInline : RM String := do
  rmWordB
  let s1 ← rmLitK "Set"
  let sp1 ← rmOpt (rmCls (fun c => c == ' '))
  let s2 ← rmLitK "Aside:"
  let sp2 ← rmOpt (rmCls (fun c => c == ' '))
  let v ← rmAlts [rmLitK "Small Business", rmLitK "Total SB", rmLitK "8(a)",
    rmLitK "SDVOSB", rmLitK "WOSB", rmLitK "HUBZone", rmLitK "Full and Open"]
  pure (String.mk (s1 ++ sp1.toList ++ s2 ++ sp2.toList ++ v))

/-- Search pattern `cert\.?\s*for\s*nat\.?\s*def` of `_normalize_set_aside`. -/
def patCertNatDef : RM Unit := do
  rmLit "cert"
  let _ ← rmOpt (rmCharCI '.')
  let _ ← rmStar isPyWS
  rmLit "for"
  let _ ← rmStar isPyWS
  rmLit "nat"
  let _ ← rmOpt (rmCharCI '.')
  let _ ← rmStar isPyWS
  rmLit "def"

/-- Search pattern `full\s+and\s+open`. -/
def patFullAndOpen : RM Unit := do
  rmLit "full"
  let _ ← rmPlus isPyWS
  rmLit "and"
  let _ ← rmPlus isPyWS
  rmLit "open"

/-- Search pattern `HUBZone price (evaluation )?preference`. -/
def patHubzonePref : RM Unit := do
  rmLit "HUBZone price "
  let _ ← rmOpt (rmLit "evaluation ")
  rmLit "preference"

/-- Pattern `NAICS[:#\s]+(\d{5,6})`. -/
def patNaics : RM String := do
  rmLit "NAICS"
  let _ ← rmPlus isColonHashWS
  let g ← rmRepGreedy Char.isDigit 5 6
  pure (String.mk g)

/-- Pattern `FOB[:#\s]+(Origin|Destination)`. -/
def patFobLabeled : RM String := do
  rmLit "FOB"
  let _ ← rmPlus isColonHashWS
  let v ← rmAlts [rmLitK "Origin", rmLitK "Destination"]
  pure (String.mk v)

/-- Pattern `\bFOB\s+(Origin|Destination)\b`. -/
def patFobInline : RM String := do
  rmWordB
  rmLit "FOB"
  let _ ← rmPlus isPyWS
  let v ← rmAlts [rmLitK "Origin", rmLitK "Destination"]
  rmWordB
  pure (String.mk v)

/-- Pattern `Inspection/Acceptance[:#\s]+([^\n]+)`. -/
def patInspAccept : RM String := do
  rmLit "Inspection/Acceptance"
  let _ ← rmPlus isColonHashWS
  let g ← rmPlus (fun c => c != '\n')
  pure (String.mk g)

/-- Pattern `INSPECTION[:#\s]+([^\n]+)`. -/
def patInspection : RM String := do
  rmLit "INSPECTION"
  let _ ← rmPlus isColonHashWS
  let g ← rmPlus (fun c => c != '\n')
  pure (String.mk g)

/-- Pattern `INSP/ACCP[:#\s]+([^\n]+)`. -/
def patInspAccp : RM String := do
  rmLit "INSP/ACCP"
  let _ ← rmPlus isColonHashWS
  let g ← rmPlus (fun c => c != '\n')
  pure (String.mk g)

/-- Search pattern `automated award|auto[- ]award|fast pay`. -/
def patAutomatedAward : RM Unit :=
  rmAlts [rmLit "automated award",
    (do
      rmLit "auto"
      let _ ← rmCls (fun c => c == '-' || c == ' ')
      rmLit "award"),
    rmLit "fast pay"]

/-- Pattern `([\w.-]+@[\w.-]+\.[A-Za-z]{2,})`. -/
def patEmail : RM String := do
  let a ← rmPlus isWordDotDash
  let atc ← rmCls (fun c => c == '@')
  let b ← rmPlus isWordDotDash
  let dot ← rmCls (fun c => c == '.')
  let tld ← rmRepAtLeast Char.isAlpha 2
  pure (String.mk (a ++ [atc] ++ b ++ [dot] ++ tld))

/-- Pattern `(\(?\d{3}\)?[-\s]\d{3}[-\s]\d{4})`. -/
def patPhone : RM String := do
  let o ← rmOpt (rmCls (fun c => c == '('))
  let a ← rmRepGreedy Char.isDigit 3 3
  let p ← rmOpt (rmCls (fun c => c == ')'))
  let s1 ← rmCls isDashWS
  let b ← rmRepGreedy Char.isDigit 3 3
  let s2 ← rmCls isDashWS
  let d ← rmRepGreedy Char.isDigit 4 4
  pure (String.mk (o.toList ++ a ++ p.toList ++ [s1] ++ b ++ [s2] ++ d))

/-- Pattern `(\d{3}[-\s]\d{4}\s+ext\.?\s*\d+)`. -/
def patPhoneExt : RM String := do
  let a ← rmRepGreedy Char.isDigit 3 3
  let s1 ← rmCls isDashWS
  let b ← rmRepGreedy Char.isDigit 4 4
  let w ← rmPlus isPyWS
  let e ← rmLitK "ext"
  let dot ← rmOpt (rmCls (fun c => c == '.'))
  let w2 ← rmStar isPyWS
  let d ← rmPlus Char.isDigit
  pure (String.mk (a ++ [s1] ++ b ++ w ++ e ++ dot.toList ++ w2 ++ d))

/-- Pattern `Point of Contact[:#\s]+([^\n<]+)`. -/
def patPoc : RM String := do
  rmLit "Point of Contact"
  let _ ← rmPlus isColonHashWS
  let g ← rmPlus (fun c => c != '\n' && c != '<')
  pure (String.mk g)

/-- Pattern `Buyer[:#\s]+([^\n<]+)`. -/
def patBuyer : RM String := do
  rmLit "Buyer"
  let _ ← rmPlus isColonHashWS
  let g ← rmPlus (fun c => c != '\n' && c != '<')
  pure (String.mk g)

/-! Exact-fraction model of the Python floats in the price pipeline.
Every operation normalizes, so structural equality is value equality and
every operation reduces inside the kernel. -/

/-- Normalized fraction (non-negative denominator, reduced). -/
structure Frac where
  num : Int
  den : Nat
deriving Repr, DecidableEq

/-- Build a normalized fraction from a numerator and a `Nat` denominator. -/
def Frac.norm (n : Int) (d : Nat) : Frac :=
  if d = 0 then ⟨0, 1⟩
  else
    let g := Int.gcd n d
    if g = 0 then ⟨0, 1⟩ else ⟨n / (g : Int), d / g⟩

/-- Build a normalized fraction from two integers. -/
def Frac.make (n d : Int) : Frac :=
  if d < 0 then Frac.norm (-n) (-d).toNat else Frac.norm n d.toNat

/-- Embed a natural number. -/
def Frac.ofNat (n : Nat) : Frac := ⟨n, 1⟩

/-- Addition. -/
def Frac.add (a b : Frac) : Frac :=
  Frac.norm (a.num * b.den + b.num * a.den) (a.den * b.den)

/-- Subtraction. -/
def Frac.sub (a b : Frac) : Frac :=
  Frac.norm (a.num * b.den - b.num * a.den) (a.den * b.den)

/-- Multiplication. -/
def Frac.mul (a b : Frac) : Frac :=
  Frac.norm (a.num * b.num) (a.den * b.den)

/-- Division (use sites guard against zero divisors). -/
def Frac.div (a b : Frac) : Frac :=
  Frac.make (a.num * b.den) (a.den * b.num)

/-- Boolean comparison a ≤ b. -/
def Frac.ble (a b : Frac) : Bool :=
  a.num * b.den ≤ b.num * a.den

/-- Boolean comparison a < b. -/
def Frac.blt (a b : Frac) : Bool :=
  a.num * b.den < b.num * a.den

/-- Binary minimum. -/
def Frac.fmin (a b : Frac) : Frac := if Frac.ble a b then a else b

/-- Binary maximum. -/
def Frac.fmax (a b : Frac) : Frac := if Frac.ble a b then b else a

/-- Floor to an integer. -/
def Frac.floor (a : Frac) : Int := a.num.fdiv a.den

/-! Data model of `src/main.py`. -/

/-- Embeds the `Snapshot` dataclass of `src/main.py`. -/
structure Snapshot where
  rfq_number : String := "Not stated in RFQ"
  rfq_id : String := "RFQ-UNKNOWN"
  rfq_id_confidence : String := "missing"
  nsn : String := "Not stated in RFQ"
  quantity : String := "Not stated in RFQ"
  delivery_requirement : String := "Not stated in RFQ"
  set_aside_status : String := "Not stated in RFQ"
  naics : String := "Not stated in RFQ"
  fob : String := "Not stated in RFQ"
  inspection_acceptance : String := "Not stated in RFQ"
  automated_award : String := "Not stated in RFQ"
  buyer_name : String := "Not stated in RFQ"
  buyer_email : String := "Not stated in RFQ"
  buyer_phone : String := "Not stated in RFQ"
deriving Repr, DecidableEq

/-- Embeds the `PriceIntelligence` dataclass of `src/main.py` (float
prices modelled as exact rationals). -/
structure PriceIntelligence where
  historical_low : String := "Not stated in RFQ"
  historical_high : String := "Not stated in RFQ"
  most_recent_award : String := "Not stated in RFQ"
  recommended_bid_price : String := "Not enough data"
  history_prices : Option (List Frac) := none
deriving Repr, DecidableEq

/-- Embeds the `WinProbability` dataclass of `src/main.py`. -/
structure WinProbability where
  score : Int
  rationale : String
  recommendation : String
  target_price_range : String
deriving Repr, DecidableEq

/-- Embeds the `ComplianceFlags` dataclass of `src/main.py`. -/
structure ComplianceFlags where
  buy_american : Bool := false
  berry_amendment : Bool := false
  domestic_sourcing : Bool := false
  additive_manufacturing_restriction : Bool := false
  packaging : Bool := false
  cyber : Bool := false
  hazardous : Bool := false
  fdt : Bool := false
deriving Repr, DecidableEq

/-- Python `a or b` for two optional strings (an empty string is falsy). -/
def pyOrOptS (a b : Option String) : Option String :=
  match a with
  | none => b
  | some s => if s = "" then b else some s

/-- Python `a or d` collapsing an optional string onto a string default. -/
def pyOrS (a : Option String) (d : String) : String :=
  match a with
  | none => d
  | some s => if s = "" then d else s

/-- Python truthiness of an optional string. -/
def pyTruthyOptS (a : Option String) : Bool :=
  match a with
  | none => false
  | some s => s != ""

/-- Embeds `_first_match` of `src/main.py`: try the patterns in order and
return the first match's capture group, stripped. -/
def first_match (text : String) (patterns : List (RM String)) : Option String :=
  match patterns with
  | [] => none
  | p :: rest =>
      match rmSearch p text.toList with
      | some g => some (pyStrip g)
      | none => first_match text rest

/-- Embeds `_extract_request_number` of `src/main.py`. -/
def _extract_request_number (text : String) : Option String :=
  match rmSearch patRequestNo text.toList with
  | some g => some (pyStripChars [' ', '.', ':', '-'] (pyStrip g))
  | none => none

/-- Embeds `_normalize_set_aside` of `src/main.py`. -/
def _normalize_set_aside (raw_value : String) (text : String) : String :=
  let normalized :=
    if (rmSearch patCertNatDef text.toList).isSome then
      "Full & Open (National Defense Priority)"
    else if (rmSearch patFullAndOpen text.toList).isSome then
      "Full & Open"
    else raw_value
  if (rmSearch patHubzonePref text.toList).isSome then
    let suffix := " with HUBZone price preference"
    if normalized ≠ "Not stated in RFQ" ∧ ¬ (containsSub normalized suffix = true) then
      normalized ++ suffix
    else if normalized = "Not stated in RFQ" then
      "Full & Open" ++ suffix
    else normalized
  else normalized

/-- Embeds the `_scan_line_window` inner loop of `_parse_clin_quantity`:
on a CLIN/PRLI/Item header line, search a 10-line window for a quantity. -/
def _scan_line_window_aux : List String → Option String
  | [] => none
  | line :: rest =>
      if (rmSearch (patClinHeader "CLIN" true) line.toList).isSome
          || (rmSearch (patClinHeader "PRLI" true) line.toList).isSome
          || (rmSearch (patClinHeader "Item" false) line.toList).isSome then
        let window := sjoin " " ((line :: rest).take 10)
        match rmSearch patQtyWindow window.toList with
        | some g => some g
        | none => _scan_line_window_aux rest
      else _scan_line_window_aux rest

/-- Embeds `_scan_line_window` of `src/main.py`. -/
def _scan_line_window (text : String) : Option String :=
  let lines := ((pySplitlines text.toList).map (fun l => pyStrip (String.mk l))).filter
    (fun s => decide (s ≠ ""))
  _scan_line_window_aux lines

/-- Embeds `_parse_clin_quantity` of `src/main.py`. -/
def _parse_clin_quantity (text : String) : Option String :=
  let direct_match := first_match text
    [patClinQty, patPrliQty, patItemQty, patQuantityLabeled]
  pyOrOptS direct_match (_scan_line_window text)

/-- Embeds `_combine_delivery_fields` of `src/main.py`. -/
def _combine_delivery_fields (primary : String) (need_ship rdd : Option String) : String :=
  let parts := if primary ≠ "Not stated in RFQ" then [primary] else []
  let parts := if pyTruthyOptS need_ship then
      parts ++ ["Need Ship Date: " ++ need_ship.getD ""]
    else parts
  let parts := if pyTruthyOptS rdd then
      parts ++ ["Original RDD: " ++ rdd.getD ""]
    else parts
  if parts ≠ [] then sjoin " | " parts else "Not stated in RFQ"

/-- Embeds `parse_snapshot` of `src/main.py`. -/
def parse_snapshot (text : String) : Snapshot :=
  let extracted_request_no := _extract_request_number text
  let rfq_number := pyOrS
    (pyOrOptS extracted_request_no (first_match text [patSolicitation, patSPE]))
    "Not stated in RFQ"
  let rfq_id_confidence :=
    if pyTruthyOptS extracted_request_no then "extracted"
    else if rfq_number ≠ "Not stated in RFQ" then "inferred"
    else "missing"
  let rfq_id := if rfq_number ≠ "Not stated in RFQ" then rfq_number else "RFQ-UNKNOWN"
  let nsn := pyOrS (first_match text [patNsnDashed, patNsnLabeled, patNsn13])
    "Not stated in RFQ"
  let quantity := pyOrS
    (pyOrOptS (_parse_clin_quantity text)
      (first_match text [patQuantityFallback, patQtyUnits]))
    "Not stated in RFQ"
  let delivery_requirement_raw := pyOrS
    (first_match text
      [patRequiredDelivery, patDeliveryWithin, patDaysARO, patDeliveryRequired])
    "Not stated in RFQ"
  let need_ship_date := first_match text [patNeedShip]
  let rdd := first_match text [patRdd]
  let delivery_requirement :=
    _combine_delivery_fields delivery_requirement_raw need_ship_date rdd
  let set_aside_status_raw := pyOrS
    (first_match text [patSetAsideLabeled, patSetAsideInline]) "Not stated in RFQ"
  let set_aside_status := _normalize_set_aside set_aside_status_raw text
  let naics := pyOrS (first_match text [patNaics]) "Not stated in RFQ"
  let fob := pyOrS (first_match text [patFobLabeled, patFobInline]) "Not stated in RFQ"
  let inspection_acceptance := pyOrS
    (first_match text [patInspAccept, patInspection, patInspAccp]) "Not stated in RFQ"
  let automated_award :=
    if (rmSearch patAutomatedAward text.toList).isSome then "Eligible"
    else "Not stated in RFQ"
  let buyer_email := pyOrS (first_match text [patEmail]) "Not stated in RFQ"
  let buyer_phone := pyOrS (first_match text [patPhone, patPhoneExt]) "Not stated in RFQ"
  let buyer_name := pyOrS (first_match text [patPoc, patBuyer]) "Not stated in RFQ"
  { rfq_number := rfq_number
    rfq_id := rfq_id
    rfq_id_confidence := rfq_id_confidence
    nsn := nsn
    quantity := quantity
    delivery_requirement := delivery_requirement
    set_aside_status := set_aside_status
    naics := naics
    fob := fob
    inspection_acceptance := inspection_acceptance
    automated_award := automated_award
    buyer_name := buyer_name
    buyer_email := buyer_email
    buyer_phone := buyer_phone }

/-! Embedding of `parse_price_history` of `src/main.py`.  Python float
arithmetic on the extracted prices is modelled by exact fractions; the
two-decimal rounding of `round(x, 2)` and of the `"{:,.2f}"` format is
modelled as exact round-half-to-even. -/

/-- Numeric value of a digit run. -/
def digitsToNat (ds : List Char) : Nat :=
  ds.foldl (fun a c => a * 10 + (c.toNat - 48)) 0

/-- Fraction value of an integer digit run plus a two-digit fraction. -/
def ratOfParts (ip fp : List Char) : Frac :=
  Frac.add (Frac.ofNat (digitsToNat ip)) (Frac.norm (digitsToNat fp) 100)

/-- Round half to even to an integer. -/
def roundHalfEven (q : Frac) : Int :=
  let f := q.floor
  let r := Frac.sub q ⟨f, 1⟩
  if Frac.blt r ⟨1, 2⟩ then f
  else if Frac.blt ⟨1, 2⟩ r then f + 1
  else if f % 2 = 0 then f else f + 1

/-- Python `round(x, 2)` on the exact-fraction model. -/
def pyRound2 (q : Frac) : Frac :=
  Frac.make (roundHalfEven (Frac.mul q (Frac.ofNat 100))) 100

/-- Digit grouping of a natural number with commas every three digits. -/
def commaGroup (ds : List Char) : List Char :=
  -- ds comes in reversed; emit three digits then a comma while more remain
  let rec go : List Char → List Char
    | [] => []
    | a :: b :: c :: rest =>
        if rest.isEmpty then [a, b, c] else a :: b :: c :: ',' :: go rest
    | l => l
  (go ds.reverse).reverse

/-- Python format `"{:,.2f}"` on the exact-fraction model. -/
def formatComma2 (q : Frac) : String :=
  let cents := roundHalfEven (Frac.mul q (Frac.ofNat 100))
  let a := cents.natAbs
  let ip := a / 100
  let fp := a % 100
  let fps := if fp < 10 then "0" ++ toString fp else toString fp
  (if cents < 0 then "-" else "") ++
    String.mk (commaGroup (toString ip).toList) ++ "." ++ fps

/-- Digits with single interior underscores, as accepted by Python
`int(...)` after the leading digit. -/
def pyIntDigitsAux (acc : Nat) : List Char → Option Nat
  | [] => some acc
  | '_' :: c :: rest =>
      if c.isDigit then pyIntDigitsAux (acc * 10 + (c.toNat - 48)) rest else none
  | c :: rest =>
      if c.isDigit then pyIntDigitsAux (acc * 10 + (c.toNat - 48)) rest else none

/-- Unsigned digit run accepted by Python `int(...)`. -/
def pyIntDigits : List Char → Option Nat
  | c :: rest => if c.isDigit then pyIntDigitsAux (c.toNat - 48) rest else none
  | [] => none

/-- Python `int(s)` on a string: optional surrounding whitespace, an
optional sign and a digit run (with single interior underscores);
`none` models the `ValueError` the sources catch. -/
def pyParseInt (s : String) : Option Int :=
  match (pyStrip s).toList with
  | '+' :: ds => (pyIntDigits ds).map Int.ofNat
  | '-' :: ds => (pyIntDigits ds).map (fun n => -(n : Int))
  | ds => (pyIntDigits ds).map Int.ofNat

/-- Python `s.replace(",", "")`. -/
def pyRemoveCommas (s : String) : String :=
  String.mk (s.toList.filter (fun c => c != ','))

/-- Stable insertion of an element into a sorted list (after any element
with an equal key), matching the stability of Python `sorted`. -/
def insertSorted (le : α → α → Bool) (x : α) : List α → List α
  | [] => [x]
  | y :: ys => if le y x then y :: insertSorted le x ys else x :: y :: ys

/-- Python `sorted(l, key=...)` as a stable sort. -/
def pySorted (le : α → α → Bool) (l : List α) : List α :=
  l.foldl (fun acc x => insertSorted le x acc) []

/-- Minimum of a price list (guarded non-empty at every use site). -/
def listMinQ : List Frac → Frac
  | [] => ⟨0, 1⟩
  | x :: xs => xs.foldl Frac.fmin x

/-- Maximum of a price list (guarded non-empty at every use site). -/
def listMaxQ : List Frac → Frac
  | [] => ⟨0, 1⟩
  | x :: xs => xs.foldl Frac.fmax x

/-- Embeds the inner `_median` of `parse_price_history`. -/
def _median (values : List Frac) : Frac :=
  let sorted_vals := pySorted Frac.ble values
  let mid := sorted_vals.length / 2
  if sorted_vals.length % 2 = 1 then sorted_vals.getD mid ⟨0, 1⟩
  else Frac.div
    (Frac.add (sorted_vals.getD (mid - 1) ⟨0, 1⟩) (sorted_vals.getD mid ⟨0, 1⟩))
    (Frac.ofNat 2)

/-- Structured history entry pattern
`(?P<qty>\d{1,4})\s+[A-Z]*\s*\$?(?P<price>\d{1,3}\.\d{2})`. -/
def patHistEntry : RM (Nat × Frac) := do
  let q ← rmRepGreedy Char.isDigit 1 4
  let _ ← rmPlus isPyWS
  let _ ← rmStar Char.isAlpha
  let _ ← rmStar isPyWS
  let _ ← rmOpt (rmCls (fun c => c == '$'))
  let ip ← rmRepGreedy Char.isDigit 1 3
  let _ ← rmCls (fun c => c == '.')
  let fp ← rmRepGreedy Char.isDigit 2 2
  pure (digitsToNat q, ratOfParts ip fp)

/-- Embeds the inner `_extract_procurement_history` of
`parse_price_history`. -/
def _extract_procurement_history (text_block : String) : List (Nat × Frac) :=
  let scopedText :=
    match findSubIdx "procurement history".toList (pyLower text_block).toList with
    | some start => String.mk ((text_block.toList.drop start).take 3000)
    | none => text_block
  ((pySplitlines scopedText.toList).map String.mk).flatMap fun line =>
    if line.toList.any Char.isDigit then
      (rmFindIter patHistEntry line.toList).filter
        (fun e => Frac.ble e.2 (Frac.ofNat 200))
    else []

/-- Star over a whole subgroup (used for `(?:,[0-9]{3})*`), greedy. -/
def rmGroupStarAux (m : RM α) : Nat → RM (List α)
  | 0 => pure []
  | fuel + 1 =>
      rmAlt
        (do
          let a ← m
          let rest ← rmGroupStarAux m fuel
          pure (a :: rest))
        (pure [])

/-- Greedy group star, with fuel bounded by the input length. -/
def rmGroupStar (m : RM α) : RM (List α) := fun prev cs =>
  rmGroupStarAux m cs.length prev cs

/-- Loose fallback pattern
`(?P<qty>\d{1,4})\s*(?:EA|Each|PG|KT|BX)?[^\n]{0,25}?\$\s*(?P<amount>[0-9]{1,3}(?:\.\d{2})?)`. -/
def patLoosePrice : RM (Nat × Frac) := do
  let q ← rmRepGreedy Char.isDigit 1 4
  let _ ← rmStar isPyWS
  let _ ← rmOpt (rmAlts [rmLit "EA", rmLit "Each", rmLit "PG", rmLit "KT", rmLit "BX"])
  let _ ← rmRepLazy (fun c => c != '\n') 0 25
  let _ ← rmCls (fun c => c == '$')
  let _ ← rmStar isPyWS
  let ip ← rmRepGreedy Char.isDigit 1 3
  let f ← rmOpt (do
    let _ ← rmCls (fun c => c == '.')
    rmRepGreedy Char.isDigit 2 2)
  pure (digitsToNat q, ratOfParts ip (f.getD []))

/-- Currency-only pattern `\$\s*([0-9]{1,3}(?:,[0-9]{3})*\.\d{2})`, with
the comma groups removed as by `p.replace(",", "")`. -/
def patCurrencyOnly : RM Frac := do
  let _ ← rmCls (fun c => c == '$')
  let _ ← rmStar isPyWS
  let ip ← rmRepGreedy Char.isDigit 1 3
  let gs ← rmGroupStar (do
    let _ ← rmCls (fun c => c == ',')
    rmRepGreedy Char.isDigit 3 3)
  let _ ← rmCls (fun c => c == '.')
  let fp ← rmRepGreedy Char.isDigit 2 2
  pure (ratOfParts (ip ++ gs.flatten) fp)

/-- One step of the loose fallback loop of `parse_price_history`:
update `(raw_prices, unit_price_candidates)` with one match. -/
def loosePriceStep (acc : List Frac × List Frac) (e : Nat × Frac) :
    List Frac × List Frac :=
  let (raw_prices, unit_price_candidates) := acc
  let (qty, amount) := e
  if Frac.ble amount (Frac.ofNat 200) then
    (raw_prices ++ [amount], unit_price_candidates ++ [amount])
  else
    let unit_estimate := Frac.div amount (Frac.ofNat (max qty 1))
    if Frac.ble unit_estimate (Frac.ofNat 200) then
      (raw_prices, unit_price_candidates ++ [pyRound2 unit_estimate])
    else
      (raw_prices, unit_price_candidates)

/-- Order-preserving deduplication of the unit-price candidates (the
`seen` set loop of `parse_price_history`). -/
def dedupKeep (l : List Frac) : List Frac :=
  (l.foldl (fun (acc : List Frac × List Frac) p =>
    if acc.2.contains p then acc else (acc.1 ++ [p], acc.2 ++ [p])) ([], [])).1

/-- Truthiness of the optional history list (None and the empty list are
both falsy). -/
def pyTruthyListQ : Option (List Frac) → Bool
  | some (_ :: _) => true
  | _ => false

/-- Focus prices used for the recommended band: the prices of the up to
`max 3 (min 5 n)` history entries whose quantity is closest to the
current quantity, or the whole history when either side is missing. -/
def focusPrices (history : List Frac) (history_quantities : Option (List (Nat × Frac)))
    (current_qty : Option Int) : List Frac :=
  match history_quantities, current_qty with
  | some hq, some cq =>
      let sorted_by_proximity := pySorted
        (fun a b => decide (((a.1 : Int) - cq).natAbs ≤ ((b.1 : Int) - cq).natAbs)) hq
      ((sorted_by_proximity.take (max 3 (min 5 sorted_by_proximity.length))).map
        (fun qp => qp.2))
  | _, _ => history

/-- Band centre of the recommended bid band: the median of the focus
prices. -/
def bandTarget (history : List Frac) (history_quantities : Option (List (Nat × Frac)))
    (current_qty : Option Int) : Frac :=
  _median (focusPrices history history_quantities current_qty)

/-- Embeds `parse_price_history` of `src/main.py`. -/
def parse_price_history (text : String) (rfq_quantity : Option String) :
    PriceIntelligence :=
  let structured_history := _extract_procurement_history text
  let current_qty : Option Int :=
    match rfq_quantity with
    | some q => if q ≠ "" then pyParseInt (pyRemoveCommas q) else none
    | none => none
  let fallback :=
    if structured_history.isEmpty then
      let (raw_prices, unit_price_candidates) :=
        (rmFindIter patLoosePrice text.toList).foldl loosePriceStep ([], [])
      let currency_only_matches := rmFindIter patCurrencyOnly text.toList
      let raw_prices := raw_prices ++
        currency_only_matches.filter (fun p => Frac.ble p (Frac.ofNat 200))
      let unit_price_candidates := unit_price_candidates ++
        currency_only_matches.filter (fun p => Frac.ble p (Frac.ofNat 200))
      let deduped_units := dedupKeep unit_price_candidates
      let history : Option (List Frac) :=
        if ¬ deduped_units.isEmpty then some deduped_units
        else if ¬ raw_prices.isEmpty then some raw_prices
        else none
      (history, (none : Option (List (Nat × Frac))))
    else
      (some (structured_history.map (fun e => e.2)), some structured_history)
  let history := fallback.1
  let history_quantities := fallback.2
  let historical_low :=
    if pyTruthyListQ history then "$" ++ formatComma2 (listMinQ (history.getD []))
    else "Not stated in RFQ"
  let historical_high :=
    if pyTruthyListQ history then "$" ++ formatComma2 (listMaxQ (history.getD []))
    else "Not stated in RFQ"
  let most_recent_award :=
    if pyTruthyListQ history then
      "$" ++ formatComma2 ((history.getD []).getLastD ⟨0, 1⟩)
    else "Not stated in RFQ"
  let recommended_bid_price :=
    if pyTruthyListQ history then
      let h := history.getD []
      let target := bandTarget h history_quantities current_qty
      let band : Frac := Frac.norm 35 1000
      let low := pyRound2 (Frac.mul target (Frac.sub (Frac.ofNat 1) band))
      let high := pyRound2 (Frac.mul target (Frac.add (Frac.ofNat 1) band))
      let base := "$" ++ formatComma2 low ++ " - $" ++ formatComma2 high
      let median_full := _median h
      if Frac.blt (Frac.mul median_full (Frac.norm 125 100)) high then
        base ++ " (trimmed for historical alignment)"
      else base
    else "Not enough data"
  { historical_low := historical_low
    historical_high := historical_high
    most_recent_award := most_recent_award
    recommended_bid_price := recommended_bid_price
    history_prices := history }

/-! Embedding of `parse_compliance_flags` and `compute_viability` of
`src/main.py`. -/

/-- Boolean search for an alternation of literal patterns,
case-insensitive. -/
def searchAny (lits : List String) (text : String) : Bool :=
  (rmSearch (rmAlts (lits.map rmLit)) text.toList).isSome

/-- Search for `auto[- ]award` (the middle branch of the automated-award
pattern is reused nowhere else; the compliance patterns are all literal
alternations). -/
def parse_compliance_flags (text : String) : ComplianceFlags :=
  { buy_american := searchAny ["Buy American", "252.225-700"] text
    berry_amendment := searchAny ["Berry Amendment", "252.225-7012", "252.225-7013"] text
    domestic_sourcing := searchAny ["domestic content", "domestic source", "US-made"] text
    additive_manufacturing_restriction := searchAny ["Additive Manufacturing", "3D printing"] text
    packaging := searchAny ["MIL-STD-129", "ASTM D3951", "RP001"] text
    cyber := searchAny ["NIST SP 800-171", "SPRS", "252.204-7012", "252.204-7020"] text
    hazardous := searchAny ["hazardous", "MSDS", "SDS"] text
    fdt := searchAny ["First Destination Transportation", "FDT"] text }

/-- Price-history block of `compute_viability`: score delta and rationale
clauses contributed by the history presence/volatility heuristics. -/
def priceAdjust (price : PriceIntelligence) : Int × List String :=
  match price.history_prices with
  | some (h :: t) =>
      let hist := h :: t
      let spread := Frac.sub (listMaxQ hist) (listMinQ hist)
      let volPart : Int × List String :=
        if Frac.blt ⟨0, 1⟩ (listMaxQ hist) then
          let volatility := Frac.div spread (listMaxQ hist)
          if Frac.blt volatility (Frac.norm 2 10) then
            (6, ["Stable historical pricing window."])
          else if Frac.blt (Frac.norm 45 100) volatility then
            (-3, ["Pricing shows high volatility."])
          else (0, [])
        else (0, [])
      (volPart.1 + 4, volPart.2 ++ ["Price history available for targeting."])
  | _ => (0, ["No price history found; more market research needed."])

/-- Quantity block of `compute_viability`: the `try/except ValueError`
around `int(snapshot.quantity.replace(",", ""))`. -/
def qtyAdjust (quantity : String) : Int × List String :=
  match pyParseInt (pyRemoveCommas quantity) with
  | some qty_value =>
      if qty_value ≤ 50 then (4, ["Manageable quantity supports quick delivery."])
      else if 500 ≤ qty_value then (-5, ["High quantity may stress supply chain."])
      else (3, ["Known production lot size aligns with historical buys."])
  | none => (-6, ["Quantity not explicit; probability reduced until parsed."])

/-- Compliance block of `compute_viability`. -/
def complianceAdjust (c : ComplianceFlags) : Int × List String :=
  let cy : Int × List String :=
    if c.cyber then (-7, ["Cyber clauses present; ensure SPRS/NIST readiness."])
    else (0, [])
  let dom : Int × List String :=
    if c.buy_american || c.berry_amendment then
      (-5, ["Domestic sourcing requirements apply."])
    else (0, [])
  let pk : Int × List String :=
    if c.packaging then (-3, ["Specific packaging standards called out."])
    else (0, [])
  let fd : Int × List String :=
    if c.fdt then (-2, ["FDT applies; include transportation in price."])
    else (0, [])
  (cy.1 + dom.1 + pk.1 + fd.1, cy.2 ++ dom.2 ++ pk.2 ++ fd.2)

/-- Automated-award block of `compute_viability`. -/
def autoAdjust (s : Snapshot) : Int × List String :=
  if s.automated_award = "Eligible" then
    (4, ["Eligible for automated award/fast pay."])
  else (0, [])

/-- Embeds `compute_viability` of `src/main.py` (the sequential `score`
and `rationale_parts` updates of the source are grouped into the four
adjustment blocks above, applied in source order). -/
def compute_viability (snapshot : Snapshot) (price : PriceIntelligence)
    (compliance : ComplianceFlags) : WinProbability :=
  let p := priceAdjust price
  let q := qtyAdjust snapshot.quantity
  let c := complianceAdjust compliance
  let a := autoAdjust snapshot
  let score0 : Int := 60 + p.1 + q.1 + c.1 + a.1
  let rationale_parts := p.2 ++ q.2 ++ c.2 ++ a.2
  let score : Int := max 0 (min 100 score0)
  let recommendation :=
    if 80 ≤ score then "✅ Bid – High Confidence"
    else if 65 ≤ score then "✅ Bid – Moderate Competition"
    else if 50 ≤ score then "⚠️ Bid With Caution"
    else "❌ Skip"
  let target_price_range :=
    if price.recommended_bid_price = "Not enough data" ∧
        pyTruthyListQ price.history_prices = true then
      "$" ++ formatComma2 ((price.history_prices.getD []).getLastD ⟨0, 1⟩) ++
        " (match last known award)"
    else price.recommended_bid_price
  { score := score
    rationale := sjoin " " rationale_parts
    recommendation := recommendation
    target_price_range := target_price_range }

/-! Embedding of `src/gov/decision/hold_resolution.py`. -/

/-- Single-quote character for Python `repr` of strings. -/
def pyQuote : String := String.singleton (Char.ofNat 39)

mutual

/-- Python `repr` on the modelled values. -/
def pyRepr : PyVal → String
  | .vnone => "None"
  | .vbool true => "True"
  | .vbool false => "False"
  | .vint n => toString n
  | .vstr s => pyQuote ++ s ++ pyQuote
  | .vlist l => "[" ++ pyReprListJoin l ++ "]"
  | .vdict d => "\x7b" ++ pyReprDictJoin d ++ "\x7d"

/-- Comma-joined reprs of list elements. -/
def pyReprListJoin : List PyVal → String
  | [] => ""
  | [x] => pyRepr x
  | x :: xs => pyRepr x ++ ", " ++ pyReprListJoin xs

/-- Comma-joined reprs of dict entries. -/
def pyReprDictJoin : List (String × PyVal) → String
  | [] => ""
  | [(k, v)] => pyQuote ++ k ++ pyQuote ++ ": " ++ pyRepr v
  | (k, v) :: xs => pyQuote ++ k ++ pyQuote ++ ": " ++ pyRepr v ++ ", " ++ pyReprDictJoin xs

end

/-- Python `str` on the modelled values (identical to `repr` except on
strings themselves). -/
def pyStr : PyVal → String
  | .vstr s => s
  | v => pyRepr v

/-- Embeds `_flatten_text` of `src/gov/decision/hold_resolution.py`. -/
def _flatten_text : PyVal → String
  | .vlist l => sjoin " " ((l.filter pyTruthy).map pyStr)
  | .vdict d => sjoin " " (((d.map Prod.snd).filter pyTruthy).map pyStr)
  | .vnone => ""
  | v => pyStr v

/-- Embeds `_contains_any` of `src/gov/decision/hold_resolution.py`. -/
def _contains_any (text : String) (keywords : List String) : Bool :=
  keywords.any fun keyword => containsSub (pyLower text) (pyLower keyword)

/-- Embeds `_append_unique` of `src/gov/decision/hold_resolution.py`. -/
def _append_unique (target : List PyDict) (item : PyDict) : List PyDict :=
  let question := pyGetD item "question" .vnone
  if ¬ pyTruthy question then target
  else if target.any (fun existing => pyGetD existing "question" .vnone == question) then
    target
  else target ++ [item]

/-- The SPRS checklist item dict of the builders. -/
def itemSprs : PyDict :=
  [("id", .vstr "sprs_score"),
   ("question", .vstr "Do you currently have a valid NIST SP 800-171 assessment posted in SPRS?"),
   ("blocking", .vbool true),
   ("clause", .vstr "DFARS 252.204-7019 / 7020")]

/-- The CMMC checklist item dict of the builders. -/
def itemCmmc : PyDict :=
  [("id", .vstr "cmmc_l2"),
   ("question", .vstr "Have you completed a CMMC Level 2 self-assessment?"),
   ("blocking", .vbool true),
   ("clause", .vstr "CMMC Level 2 / RD004")]

/-- The JCP checklist item dict of the authoritative builder. -/
def itemJcp : PyDict :=
  [("id", .vstr "jcp"),
   ("question", .vstr "Is your organization JCP certified for export-controlled technical data?"),
   ("blocking", .vbool true),
   ("clause", .vstr "ITAR / Export Control")]

/-- The packaging checklist item dict of the builders. -/
def itemPackaging : PyDict :=
  [("id", .vstr "packaging"),
   ("question", .vstr "Can your supplier comply with MIL-STD-129 and DLA packaging requirements?"),
   ("blocking", .vbool false)]

/-- The FDT checklist item dict of the builders. -/
def itemFdt : PyDict :=
  [("id", .vstr "fdt"),
   ("question", .vstr "Do you understand and have experience with FOB Origin under FDT?"),
   ("blocking", .vbool false)]

/-- The hazmat checklist item dict of the builders. -/
def itemHazmat : PyDict :=
  [("id", .vstr "hazmat"),
   ("question", .vstr "Can you provide SDS/MSDS documentation for hazardous material handling?"),
   ("blocking", .vbool false)]

/-- View of a payload field as a dict (`result.get(k) or {}`; a truthy
non-dict value would raise in Python at the subsequent `.get`, and is
treated as the empty dict here). -/
def asDict : PyVal → PyDict
  | .vdict d => d
  | _ => []

/-- Embeds `build_hold_resolution_checklist_for_authoritative` of
`src/gov/decision/hold_resolution.py`. -/
def build_hold_resolution_checklist_for_authoritative (result : PyDict) :
    List PyDict :=
  let decision := pyUpper (pyStr (pyGetD result "decision" (.vstr "")))
  if decision ≠ "HOLD" then []
  else
    let key_facts := asDict (pyGetD result "key_facts" .vnone)
    let risks := asDict (pyGetD result "bid_risk_and_compliance_exposure" .vnone)
    let cyber_text := sjoin " "
      [_flatten_text (pyGetD key_facts "cyber" .vnone),
       _flatten_text (pyGetD risks "cybersecurity" .vnone)]
    let cert_text := sjoin " "
      [_flatten_text (pyGetD risks "certifications" .vnone),
       _flatten_text (pyGetD risks "other" .vnone)]
    let packaging_text := sjoin " "
      [_flatten_text (pyGetD risks "packaging" .vnone),
       _flatten_text (pyGetD key_facts "packaging" .vnone)]
    let fdt_text := sjoin " "
      [_flatten_text (pyGetD risks "FOB_FDT" .vnone),
       _flatten_text (pyGetD key_facts "FDT" .vnone),
       _flatten_text (pyGetD key_facts "FOB" .vnone)]
    let hazmat_text := _flatten_text (pyGetD risks "hazmat" .vnone)
    let checklist : List PyDict := []
    let checklist :=
      if _contains_any cyber_text ["sprs", "800-171", "nist", "7019", "7020", "7012"]
          || (_flatten_text (pyGetD key_facts "cyber" .vnone) ≠ "") then
        _append_unique checklist itemSprs
      else checklist
    let checklist :=
      if _contains_any cyber_text ["cmmc", "level 2", "level ii", "rd004", "rd 004"] then
        _append_unique checklist itemCmmc
      else checklist
    let checklist :=
      if _contains_any cert_text ["jcp", "export", "itar", "ear", "usml", "dfars 252.204-7008"] then
        _append_unique checklist itemJcp
      else checklist
    let checklist :=
      if _contains_any packaging_text ["mil-std-129", "astm d3951", "rp001", "packaging"] then
        _append_unique checklist itemPackaging
      else checklist
    let checklist :=
      if _contains_any fdt_text ["fdt", "first destination transportation", "fob origin", "origin"] then
        _append_unique checklist itemFdt
      else checklist
    let checklist :=
      if _contains_any hazmat_text ["hazard", "sds", "msds"] then
        _append_unique checklist itemHazmat
      else checklist
    checklist

/-- Embeds `build_hold_resolution_checklist_for_engine` of
`src/gov/decision/hold_resolution.py`. -/
def build_hold_resolution_checklist_for_engine (decision_label : String)
    (compliance_flags : PyDict) : List PyDict :=
  if pyUpper decision_label ≠ "HOLD" then []
  else
    let checklist : List PyDict := []
    let checklist :=
      if pyTruthy (pyGetD compliance_flags "cyber" .vnone) then
        _append_unique (_append_unique checklist itemSprs) itemCmmc
      else checklist
    let checklist :=
      if pyTruthy (pyGetD compliance_flags "packaging" .vnone) then
        _append_unique checklist itemPackaging
      else checklist
    let checklist :=
      if pyTruthy (pyGetD compliance_flags "fdt" .vnone) then
        _append_unique checklist itemFdt
      else checklist
    let checklist :=
      if pyTruthy (pyGetD compliance_flags "hazardous" .vnone) then
        _append_unique checklist itemHazmat
      else checklist
    checklist

/-! Embedding of the hold-resolution session machinery of
`src/discord_bot.py`. -/

/-- Normalized checklist item produced by `_normalize_hold_checklist`. -/
structure NormItem where
  id : String
  question : String
  blocks_bid_if_no : Bool
deriving Repr, DecidableEq

/-- Per-user session dict created by `on_message` of `src/discord_bot.py`. -/
structure Session where
  rfq_id : String
  checklist : List NormItem
  current_index : Nat
  answers : List (String × String)
deriving Repr, DecidableEq

/-- Python dict assignment `d[k] = v` on a string-valued dict. -/
def dictSetS (d : List (String × String)) (k v : String) : List (String × String) :=
  match d with
  | [] => [(k, v)]
  | (k2, v2) :: rest => if k2 = k then (k, v) :: rest else (k2, v2) :: dictSetS rest k v

/-- Python `d.get(k, default)` on a string-valued dict. -/
def dictGetSD (d : List (String × String)) (k dflt : String) : String :=
  match d with
  | [] => dflt
  | (k2, v) :: rest => if k2 = k then v else dictGetSD rest k dflt

/-- Embeds `_normalize_hold_checklist` of `src/discord_bot.py` (the
enumeration index advances on every input item, answered or skipped). -/
def _normalize_hold_checklist_aux : Nat → List PyDict → List NormItem
  | _, [] => []
  | index, item :: rest =>
      let question := pyGetD item "question" .vnone
      if ¬ pyTruthy question then _normalize_hold_checklist_aux (index + 1) rest
      else
        { id :=
            let rawId := pyGetD item "id" .vnone
            if pyTruthy rawId then pyStr rawId else "hold-" ++ toString index
          question := pyStr question
          blocks_bid_if_no := pyTruthy (pyGetD item "blocks_bid_if_no" (.vbool false)) }
          :: _normalize_hold_checklist_aux (index + 1) rest

/-- Embeds `_normalize_hold_checklist` of `src/discord_bot.py`. -/
def _normalize_hold_checklist (checklist : List PyDict) : List NormItem :=
  _normalize_hold_checklist_aux 1 checklist

/-- Embeds `_format_hold_question_message` of `src/discord_bot.py`. -/
def _format_hold_question_message (session : Session) (item : NormItem) : String :=
  let total := session.checklist.length
  let blocks := if item.blocks_bid_if_no then "⚠️ Blocks bid if NO." else "Advisory item."
  "📝 HOLD checklist (" ++ toString (session.current_index + 1) ++ "/" ++
    toString total ++ ")\n" ++ item.question ++ "\n" ++ blocks

/-- One numbered line of the completion summary of
`_format_hold_summary`. -/
def summaryLine (answers : List (String × String)) (index : Nat) (item : NormItem) :
    String :=
  let answer := pyUpper (dictGetSD answers item.id "unanswered")
  let suffix := if answer = "NO" ∧ item.blocks_bid_if_no then " (BLOCKS BID)" else ""
  toString index ++ ". " ++ item.question ++ " — " ++ answer ++ suffix

/-- The numbered lines of the completion summary, from `start = 1`. -/
def summaryLines (answers : List (String × String)) : Nat → List NormItem → List String
  | _, [] => []
  | i, item :: rest => summaryLine answers i item :: summaryLines answers (i + 1) rest

/-- Embeds `_format_hold_summary` of `src/discord_bot.py`. -/
def _format_hold_summary (session : Session) : String :=
  sjoin "\n"
    (("✅ HOLD checklist complete for " ++ session.rfq_id ++ ".") ::
      summaryLines session.answers 1 session.checklist)

/-- Outcome of one button press handled by
`HoldResolutionView._handle_answer`. -/
inductive AnswerOutcome where
  | expired : AnswerOutcome
  | alreadyComplete : AnswerOutcome
  | nextQuestion (message : String) : AnswerOutcome
  | completed (summary : String) : AnswerOutcome
deriving Repr, DecidableEq

/-- Embeds `HoldResolutionView._handle_answer` of `src/discord_bot.py`
at the level of the per-user session store (`user_sessions` holds at most
one session per user; completion pops it). -/
def _handle_answer (store : Option Session) (answer : String) :
    Option Session × AnswerOutcome :=
  match store with
  | none => (none, .expired)
  | some session =>
      let checklist := session.checklist
      let current_index := session.current_index
      if h : current_index < checklist.length then
        let current_item := checklist.get ⟨current_index, h⟩
        let session2 := { session with
          answers := dictSetS session.answers current_item.id answer
          current_index := current_index + 1 }
        if session2.current_index ≥ checklist.length then
          (none, .completed (_format_hold_summary session2))
        else
          (some session2, .nextQuestion (_format_hold_question_message session2
            (checklist.getD session2.current_index ⟨"", "", false⟩)))
      else (some session, .alreadyComplete)

/-- Embeds the session construction of `on_message` of
`src/discord_bot.py`. -/
def mkSession (rfq_id : String) (checklist : List NormItem) : Session :=
  { rfq_id := rfq_id, checklist := checklist, current_index := 0, answers := [] }

/-! Helper lemmas on strings and the Python-or combinators. -/

/-- A string of length zero is the empty string. -/
theorem str_eq_empty_of_length_zero (a : String) (h : a.length = 0) : a = "" := by
  cases a with
  | mk data =>
      cases data with
      | nil => rfl
      | cons c cs => simp [String.length] at h

/-- Appending on the right cannot empty a non-empty string. -/
theorem str_append_ne_empty_left (a b : String) (h : a ≠ "") : a ++ b ≠ "" := by
  intro he
  apply h
  have h2 := congrArg String.length he
  simp [String.length_append] at h2
  exact str_eq_empty_of_length_zero a h2.1

/-- The Python `or`-with-default of an optional string keeps a non-empty
default non-empty. -/
theorem pyOrS_ne_empty (o : Option String) (d : String) (h : d ≠ "") :
    pyOrS o d ≠ "" := by
  unfold pyOrS
  match o with
  | none => exact h
  | some s =>
      by_cases hs : s = ""
      · simp [hs, h]
      · simp [hs]

/-- A separator-join starting with a non-empty part is non-empty. -/
theorem sjoin_cons_ne_empty (sep x : String) (xs : List String) (h : x ≠ "") :
    sjoin sep (x :: xs) ≠ "" := by
  cases xs with
  | nil => simp [sjoin, h]
  | cons y ys =>
      show x ++ sep ++ sjoin sep (y :: ys) ≠ ""
      exact str_append_ne_empty_left _ _ (str_append_ne_empty_left _ _ h)

/-- The delivery-field combination never returns an empty string when its
primary input is non-empty. -/
theorem combine_delivery_ne_empty (primary : String) (ns rdd : Option String)
    (h : primary ≠ "") : _combine_delivery_fields primary ns rdd ≠ "" := by
  unfold _combine_delivery_fields
  have hneed : ∀ s : String, "Need Ship Date: " ++ s ≠ "" := fun s =>
    str_append_ne_empty_left _ _ (by decide)
  have hrdd : ∀ s : String, "Original RDD: " ++ s ≠ "" := fun s =>
    str_append_ne_empty_left _ _ (by decide)
  split_ifs <;>
    first
      | decide
      | exact sjoin_cons_ne_empty _ _ _ h
      | exact sjoin_cons_ne_empty _ _ _ (hneed _)
      | exact sjoin_cons_ne_empty _ _ _ (hrdd _)

/-- The set-aside normalization never returns an empty string when its
raw input is non-empty. -/
theorem normalize_set_aside_ne_empty (raw text : String) (h : raw ≠ "") :
    _normalize_set_aside raw text ≠ "" := by
  unfold _normalize_set_aside
  cases hcert : (rmSearch patCertNatDef text.toList).isSome <;>
  cases hfull : (rmSearch patFullAndOpen text.toList).isSome <;>
  cases hhub : (rmSearch patHubzonePref text.toList).isSome <;>
  simp only [hcert, hfull, hhub, Bool.false_eq_true, if_true, if_false] <;>
  first
    | decide
    | exact h
    | (split_ifs <;>
        first
          | decide
          | exact h
          | exact str_append_ne_empty_left _ _ h)

/-! Shape lemmas for the hold-resolution checklist builders. -/

/-- The fixed trigger-evaluation order of the checklist items:
cyber (SPRS, CMMC) → export control (JCP) → packaging → FDT → hazmat. -/
def canonicalChecklistOrder : List PyDict :=
  [itemSprs, itemCmmc, itemJcp, itemPackaging, itemFdt, itemHazmat]

/-- The conditional-append chain of the authoritative builder, with its
six trigger conditions abstracted to booleans. -/
def condChainAuth (b1 b2 b3 b4 b5 b6 : Bool) : List PyDict :=
  let checklist : List PyDict := []
  let checklist := if b1 then _append_unique checklist itemSprs else checklist
  let checklist := if b2 then _append_unique checklist itemCmmc else checklist
  let checklist := if b3 then _append_unique checklist itemJcp else checklist
  let checklist := if b4 then _append_unique checklist itemPackaging else checklist
  let checklist := if b5 then _append_unique checklist itemFdt else checklist
  let checklist := if b6 then _append_unique checklist itemHazmat else checklist
  checklist

/-- Every chain output is an order-respecting selection of the canonical
item order with pairwise distinct questions. -/
theorem condChainAuth_shape (b1 b2 b3 b4 b5 b6 : Bool) :
    (condChainAuth b1 b2 b3 b4 b5 b6).Sublist canonicalChecklistOrder ∧
    ((condChainAuth b1 b2 b3 b4 b5 b6).map
      (fun i => pyGetD i "question" .vnone)).Nodup := by
  cases b1 <;> cases b2 <;> cases b3 <;> cases b4 <;> cases b5 <;> cases b6 <;>
    exact ⟨by decide, by decide⟩

/-- The conditional-append chain of the engine builder, with its four
compliance-flag conditions abstracted to booleans. -/
def condChainEngine (b1 b2 b3 b4 : Bool) : List PyDict :=
  let checklist : List PyDict := []
  let checklist := if b1 then
      _append_unique (_append_unique checklist itemSprs) itemCmmc
    else checklist
  let checklist := if b2 then _append_unique checklist itemPackaging else checklist
  let checklist := if b3 then _append_unique checklist itemFdt else checklist
  let checklist := if b4 then _append_unique checklist itemHazmat else checklist
  checklist

/-- Every engine-chain output is an order-respecting selection of the
canonical item order with pairwise distinct questions. -/
theorem condChainEngine_shape (b1 b2 b3 b4 : Bool) :
    (condChainEngine b1 b2 b3 b4).Sublist canonicalChecklistOrder ∧
    ((condChainEngine b1 b2 b3 b4).map
      (fun i => pyGetD i "question" .vnone)).Nodup := by
  cases b1 <;> cases b2 <;> cases b3 <;> cases b4 <;> exact ⟨by decide, by decide⟩

/-- The authoritative builder is its conditional-append chain guarded by
the HOLD test. -/
theorem build_auth_eq (result : PyDict) :
    build_hold_resolution_checklist_for_authoritative result =
      (if pyUpper (pyStr (pyGetD result "decision" (.vstr ""))) ≠ "HOLD" then []
       else
        let key_facts := asDict (pyGetD result "key_facts" .vnone)
        let risks := asDict (pyGetD result "bid_risk_and_compliance_exposure" .vnone)
        let cyber_text := sjoin " "
          [_flatten_text (pyGetD key_facts "cyber" .vnone),
           _flatten_text (pyGetD risks "cybersecurity" .vnone)]
        let cert_text := sjoin " "
          [_flatten_text (pyGetD risks "certifications" .vnone),
           _flatten_text (pyGetD risks "other" .vnone)]
        let packaging_text := sjoin " "
          [_flatten_text (pyGetD risks "packaging" .vnone),
           _flatten_text (pyGetD key_facts "packaging" .vnone)]
        let fdt_text := sjoin " "
          [_flatten_text (pyGetD risks "FOB_FDT" .vnone),
           _flatten_text (pyGetD key_facts "FDT" .vnone),
           _flatten_text (pyGetD key_facts "FOB" .vnone)]
        let hazmat_text := _flatten_text (pyGetD risks "hazmat" .vnone)
        condChainAuth
          (_contains_any cyber_text ["sprs", "800-171", "nist", "7019", "7020", "7012"]
            || (_flatten_text (pyGetD key_facts "cyber" .vnone) ≠ ""))
          (_contains_any cyber_text ["cmmc", "level 2", "level ii", "rd004", "rd 004"])
          (_contains_any cert_text ["jcp", "export", "itar", "ear", "usml", "dfars 252.204-7008"])
          (_contains_any packaging_text ["mil-std-129", "astm d3951", "rp001", "packaging"])
          (_contains_any fdt_text ["fdt", "first destination transportation", "fob origin", "origin"])
          (_contains_any hazmat_text ["hazard", "sds", "msds"])) := rfl

/-- The engine builder is its conditional-append chain guarded by the
HOLD test. -/
theorem build_engine_eq (decision_label : String) (compliance_flags : PyDict) :
    build_hold_resolution_checklist_for_engine decision_label compliance_flags =
      (if pyUpper decision_label ≠ "HOLD" then []
       else condChainEngine
        (pyTruthy (pyGetD compliance_flags "cyber" .vnone))
        (pyTruthy (pyGetD compliance_flags "packaging" .vnone))
        (pyTruthy (pyGetD compliance_flags "fdt" .vnone))
        (pyTruthy (pyGetD compliance_flags "hazardous" .vnone))) := rfl

/-- The authoritative builder output is a sublist of the canonical item
order. -/
theorem build_auth_sublist (result : PyDict) :
    (build_hold_resolution_checklist_for_authoritative result).Sublist
      canonicalChecklistOrder := by
  rw [build_auth_eq]
  split_ifs
  · exact List.nil_sublist _
  · exact (condChainAuth_shape _ _ _ _ _ _).1

/-- The authoritative builder output has pairwise distinct questions. -/
theorem build_auth_nodup (result : PyDict) :
    ((build_hold_resolution_checklist_for_authoritative result).map
      (fun i => pyGetD i "question" .vnone)).Nodup := by
  rw [build_auth_eq]
  split_ifs
  · exact List.nodup_nil
  · exact (condChainAuth_shape _ _ _ _ _ _).2

/-- The engine builder output is a sublist of the canonical item order. -/
theorem build_engine_sublist (decision_label : String) (compliance_flags : PyDict) :
    (build_hold_resolution_checklist_for_engine decision_label compliance_flags).Sublist
      canonicalChecklistOrder := by
  rw [build_engine_eq]
  split_ifs
  · exact List.nil_sublist _
  · exact (condChainEngine_shape _ _ _ _).1

/-- The engine builder output has pairwise distinct questions. -/
theorem build_engine_nodup (decision_label : String) (compliance_flags : PyDict) :
    ((build_hold_resolution_checklist_for_engine decision_label compliance_flags).map
      (fun i => pyGetD i "question" .vnone)).Nodup := by
  rw [build_engine_eq]
  split_ifs
  · exact List.nodup_nil
  · exact (condChainEngine_shape _ _ _ _).2

/-- C7: for every checklist session and submitted answer, current_index
never exceeds the checklist length; a session addressed at or past the
end is rejected without mutation; an accepted answer advances
current_index by exactly one while recording the answer keyed by the
current item id; completion occurs exactly when the advanced index equals
the checklist length, upon which the session is destroyed (the store
becomes empty, and an empty store rejects with an expired signal, so the
session cannot be resumed or re-queried); a fresh session starts at
index 0. -/

theorem handle_answer_state_machine (session : Session) (answer : String)
    (hinv : session.current_index ≤ session.checklist.length) :
    (_handle_answer none answer = (none, AnswerOutcome.expired)) ∧
    (session.checklist.length ≤ session.current_index →
      _handle_answer (some session) answer =
        (some session, AnswerOutcome.alreadyComplete)) ∧
    (session.current_index < session.checklist.length →
      (let session2 : Session := { session with
          answers := dictSetS session.answers
            (session.checklist.getD session.current_index ⟨"", "", false⟩).id answer
          current_index := session.current_index + 1 }
       (session2.current_index = session.checklist.length →
          _handle_answer (some session) answer =
            (none, AnswerOutcome.completed (_format_hold_summary session2))) ∧
       (session2.current_index < session.checklist.length →
          _handle_answer (some session) answer =
            (some session2, AnswerOutcome.nextQuestion
              (_format_hold_question_message session2
                (session.checklist.getD session2.current_index ⟨"", "", false⟩)))) ∧
       session2.current_index ≤ session2.checklist.length ∧
       session2.current_index = session.current_index + 1)) ∧
    (mkSession session.rfq_id session.checklist).current_index = 0 := by
  refine ⟨rfl, fun hge => ?_, fun hlt => ?_, rfl⟩
  · unfold _handle_answer
    dsimp only
    rw [dif_neg (by omega)]
  · have hget : session.checklist.getD session.current_index ⟨"", "", false⟩ =
        session.checklist.get ⟨session.current_index, hlt⟩ := by
      simp [List.getD_eq_getElem?_getD, List.getElem?_eq_getElem hlt]
    refine ⟨fun hend => ?_, fun hmid => ?_, hlt, rfl⟩
    · unfold _handle_answer
      dsimp only
      rw [dif_pos hlt]
      rw [if_pos (by simpa using hend.ge), hget]
    · unfold _handle_answer
      dsimp only
      rw [dif_pos hlt]
      rw [if_neg (by simpa using Nat.not_le.mpr hmid), hget]

/-- Witness for C7: a one-item session accepts an answer, records it,
completes, and is destroyed. -/
theorem handle_answer_state_machine_witness :
    _handle_answer (some (mkSession "R" [⟨"a", "Q?", false⟩])) "YES" =
      (none, AnswerOutcome.completed (_format_hold_summary
        { mkSession "R" [⟨"a", "Q?", false⟩] with
          answers := dictSetS (mkSession "R" [⟨"a", "Q?", false⟩]).answers
            ((mkSession "R" [⟨"a", "Q?", false⟩]).checklist.getD
              (mkSession "R" [⟨"a", "Q?", false⟩]).current_index ⟨"", "", false⟩).id "YES"
          current_index := (mkSession "R" [⟨"a", "Q?", false⟩]).current_index + 1 })) :=
  ((handle_answer_state_machine (mkSession "R" [⟨"a", "Q?", false⟩]) "YES"
      (by decide)).2.2.1 (by decide)).1 (by decide)

/-- C6: both hold-resolution checklist builders return the empty list
whenever the decision label is (case-insensitively) not HOLD; when it is
HOLD, each question appears at most once even when several trigger paths
fire, and items appear in the fixed trigger-evaluation order
cyber → export-control → packaging → FDT → hazardous (the output is a
sublist of the canonical item order). -/
theorem hold_checklist_builders_shape (result : PyDict) (decision_label : String)
    (compliance_flags : PyDict) :
    (pyUpper (pyStr (pyGetD result "decision" (.vstr ""))) ≠ "HOLD" →
      build_hold_resolution_checklist_for_authoritative result = []) ∧
    (pyUpper decision_label ≠ "HOLD" →
      build_hold_resolution_checklist_for_engine decision_label compliance_flags = []) ∧
    ((build_hold_resolution_checklist_for_authoritative result).map
      (fun i => pyGetD i "question" .vnone)).Nodup ∧
    (build_hold_resolution_checklist_for_authoritative result).Sublist
      canonicalChecklistOrder ∧
    ((build_hold_resolution_checklist_for_engine decision_label compliance_flags).map
      (fun i => pyGetD i "question" .vnone)).Nodup ∧
    (build_hold_resolution_checklist_for_engine decision_label compliance_flags).Sublist
      canonicalChecklistOrder := by
  refine ⟨fun hd => ?_, fun he => ?_, build_auth_nodup result,
    build_auth_sublist result, build_engine_nodup decision_label compliance_flags,
    build_engine_sublist decision_label compliance_flags⟩
  · rw [build_auth_eq, if_pos hd]
  · rw [build_engine_eq, if_pos he]

/-- Witness for C6: a non-HOLD decision yields the empty checklist from
both builders. -/
theorem hold_checklist_builders_shape_witness :
    build_hold_resolution_checklist_for_authoritative [("decision", PyVal.vstr "BID")] = [] ∧
    build_hold_resolution_checklist_for_engine "SKIP" [("cyber", PyVal.vbool true)] = [] :=
  ⟨(hold_checklist_builders_shape [("decision", PyVal.vstr "BID")] "SKIP"
      [("cyber", PyVal.vbool true)]).1 (by decide),
   (hold_checklist_builders_shape [("decision", PyVal.vstr "BID")] "SKIP"
      [("cyber", PyVal.vbool true)]).2.1 (by decide)⟩

/-- None of the builder items carries the `blocks_bid_if_no` key (they
mark blocking items under the key `blocking` instead). -/
theorem canonical_no_blocks_key :
    ∀ item ∈ canonicalChecklistOrder, dictGet item "blocks_bid_if_no" = none := by
  decide

/-- If no input item carries the `blocks_bid_if_no` key, every normalized
item comes out non-blocking. -/
theorem normalize_aux_blocks_false (l : List PyDict)
    (h : ∀ item ∈ l, dictGet item "blocks_bid_if_no" = none) :
    ∀ n, ∀ x ∈ _normalize_hold_checklist_aux n l, x.blocks_bid_if_no = false := by
  induction l with
  | nil => intro n x hx; simp [_normalize_hold_checklist_aux] at hx
  | cons item rest ih =>
      intro n x hx
      have hhead := h item (List.mem_cons_self item rest)
      have htail : ∀ i ∈ rest, dictGet i "blocks_bid_if_no" = none :=
        fun i hi => h i (List.mem_cons_of_mem item hi)
      simp only [_normalize_hold_checklist_aux] at hx
      by_cases hq : pyTruthy (pyGetD item "question" .vnone) = true
      · simp only [hq, not_true, if_neg, ite_false, List.mem_cons] at hx
        rcases hx with hx | hx
        · subst hx
          simp [pyGetD, hhead, pyTruthy]
        · exact ih htail (n + 1) x hx
      · simp only [hq, not_false_iff, ite_true] at hx
        exact ih htail (n + 1) x hx

/-- C10: `_normalize_hold_checklist` reads only the key
`blocks_bid_if_no`, which neither builder ever sets (they set `blocking`),
so every normalized builder-derived item has blocks_bid_if_no = false and
is treated as non-blocking by the interactive session and its summary. -/
theorem normalized_builder_items_not_blocking (result : PyDict)
    (decision_label : String) (compliance_flags : PyDict) :
    (∀ x ∈ _normalize_hold_checklist
        (build_hold_resolution_checklist_for_authoritative result),
      x.blocks_bid_if_no = false) ∧
    (∀ x ∈ _normalize_hold_checklist
        (build_hold_resolution_checklist_for_engine decision_label compliance_flags),
      x.blocks_bid_if_no = false) := by
  constructor
  · exact normalize_aux_blocks_false _
      (fun item hi => canonical_no_blocks_key item
        ((build_auth_sublist result).subset hi)) 1
  · exact normalize_aux_blocks_false _
      (fun item hi => canonical_no_blocks_key item
        ((build_engine_sublist decision_label compliance_flags).subset hi)) 1

/-- Witness for C10: the SPRS item (blocking for the builders) comes out
of normalization with blocks_bid_if_no = false. -/
theorem normalized_builder_items_not_blocking_witness :
    (⟨"sprs_score",
      "Do you currently have a valid NIST SP 800-171 assessment posted in SPRS?",
      false⟩ : NormItem) ∈
      _normalize_hold_checklist (build_hold_resolution_checklist_for_engine "HOLD"
        [("cyber", PyVal.vbool true)]) ∧
    (⟨"sprs_score",
      "Do you currently have a valid NIST SP 800-171 assessment posted in SPRS?",
      false⟩ : NormItem).blocks_bid_if_no = false :=
  ⟨by decide,
   (normalized_builder_items_not_blocking [] "HOLD" [("cyber", PyVal.vbool true)]).2
     _ (by decide)⟩

/-! Substring lemmas used to locate rationale clauses inside the joined
rationale string. -/

/-- A pattern matches at the head of itself followed by anything. -/
theorem startsWithChars_append_self (pat rest : List Char) :
    startsWithChars pat (pat ++ rest) = true := by
  induction pat with
  | nil => rfl
  | cons p ps ih => simp [startsWithChars, ih]

/-- A pattern is found in itself followed by anything. -/
theorem findSubIdx_isSome_self_append (pat rest : List Char) :
    (findSubIdx pat (pat ++ rest)).isSome = true := by
  cases pat with
  | nil => cases rest <;> simp [findSubIdx, startsWithChars]
  | cons p ps =>
      show (findSubIdx (p :: ps) ((p :: ps) ++ rest)).isSome = true
      rw [List.cons_append, findSubIdx,
        show p :: (ps ++ rest) = (p :: ps) ++ rest from rfl,
        startsWithChars_append_self]
      simp

/-- Finding a pattern is stable under prepending text. -/
theorem findSubIdx_isSome_append_right (pat xs ys : List Char)
    (h : (findSubIdx pat ys).isSome = true) :
    (findSubIdx pat (xs ++ ys)).isSome = true := by
  induction xs with
  | nil => simpa using h
  | cons c cs ih =>
      simp only [List.cons_append, findSubIdx]
      split_ifs
      · simp
      · simpa using ih

/-- Characters of an appended string. -/
theorem toList_str_append (a b : String) : (a ++ b).toList = a.toList ++ b.toList := by
  cases a with
  | mk da => cases b with
    | mk db => rfl

/-- Every element of a joined list occurs in the joined string. -/
theorem sjoin_contains_of_mem (sep x : String) (l : List String) (hx : x ∈ l) :
    containsSub (sjoin sep l) x = true := by
  induction l with
  | nil => cases hx
  | cons y ys ih =>
      rcases List.mem_cons.mp hx with rfl | hmem
      · cases ys with
        | nil =>
            show (findSubIdx x.toList ((sjoin sep [x]).toList)).isSome = true
            have h := findSubIdx_isSome_self_append x.toList []
            simpa [sjoin] using h
        | cons z zs =>
            show containsSub (x ++ sep ++ sjoin sep (z :: zs)) x = true
            unfold containsSub
            rw [toList_str_append, toList_str_append, List.append_assoc]
            exact findSubIdx_isSome_self_append _ _
      · cases ys with
        | nil => cases hmem
        | cons z zs =>
            show containsSub (y ++ sep ++ sjoin sep (z :: zs)) x = true
            unfold containsSub
            rw [toList_str_append]
            exact findSubIdx_isSome_append_right _ _ _ (ih hmem)

/-- C9: numeric-coercion failures never escape the price/score pipeline:
a snapshot quantity that fails Python int coercion contributes exactly
the fixed -6 penalty with the unparsed-quantity rationale clause (which
then appears in the final rationale), and a requested quantity that fails
coercion makes parse_price_history behave exactly as if no quantity were
given, merely disabling quantity-proximity weighting.  Both embedded
functions are total, so no error propagates. -/
theorem unparsable_quantity_absorbed (text : String) (snapshot : Snapshot)
    (price : PriceIntelligence) (compliance : ComplianceFlags) (qs : String)
    (hq : pyParseInt (pyRemoveCommas snapshot.quantity) = none)
    (hq2 : pyParseInt (pyRemoveCommas qs) = none) :
    qtyAdjust snapshot.quantity =
      (-6, ["Quantity not explicit; probability reduced until parsed."]) ∧
    containsSub (compute_viability snapshot price compliance).rationale
      "Quantity not explicit; probability reduced until parsed." = true ∧
    parse_price_history text (some qs) = parse_price_history text none := by
  have hadj : qtyAdjust snapshot.quantity =
      (-6, ["Quantity not explicit; probability reduced until parsed."]) := by
    simp [qtyAdjust, hq]
  refine ⟨hadj, ?_, ?_⟩
  · show containsSub (sjoin " " ((priceAdjust price).2 ++ (qtyAdjust snapshot.quantity).2
      ++ (complianceAdjust compliance).2 ++ (autoAdjust snapshot).2)) _ = true
    apply sjoin_contains_of_mem
    rw [hadj]
    simp
  · unfold parse_price_history
    by_cases hqe : qs = ""
    · simp [hqe]
    · simp [hqe, hq2]

/-- Witness for C9: the sentinel quantity fails coercion, is absorbed as
the fixed penalty clause, and an unparsable requested quantity leaves the
price parse unchanged. -/
theorem unparsable_quantity_absorbed_witness :
    qtyAdjust ({} : Snapshot).quantity =
      (-6, ["Quantity not explicit; probability reduced until parsed."]) ∧
    containsSub (compute_viability {} {} {}).rationale
      "Quantity not explicit; probability reduced until parsed." = true ∧
    parse_price_history "QTY x" (some "x,y") = parse_price_history "QTY x" none :=
  unparsable_quantity_absorbed "QTY x" {} {} {} "x,y" (by decide) (by decide)

/-- C2: the win-probability score is clamped into the closed interval
[0, 100] for every snapshot, price intelligence and compliance-flag
combination (hence for every input text). -/
theorem compute_viability_score_bounds (snapshot : Snapshot)
    (price : PriceIntelligence) (compliance : ComplianceFlags) :
    0 ≤ (compute_viability snapshot price compliance).score ∧
    (compute_viability snapshot price compliance).score ≤ 100 := by
  unfold compute_viability
  refine ⟨le_max_left 0 _, ?_⟩
  simp only [max_le_iff, min_le_iff]
  exact ⟨by omega, Or.inl (le_refl 100)⟩

/-- C5: every string field of the snapshot is non-empty for every input
text: either a non-empty extracted value or its fixed sentinel; the
identifier confidence is one of extracted, inferred, missing. -/
theorem parse_snapshot_fields_nonempty (text : String) :
    (parse_snapshot text).rfq_number ≠ "" ∧
    (parse_snapshot text).rfq_id ≠ "" ∧
    ((parse_snapshot text).rfq_id_confidence = "extracted" ∨
      (parse_snapshot text).rfq_id_confidence = "inferred" ∨
      (parse_snapshot text).rfq_id_confidence = "missing") ∧
    (parse_snapshot text).nsn ≠ "" ∧
    (parse_snapshot text).quantity ≠ "" ∧
    (parse_snapshot text).delivery_requirement ≠ "" ∧
    (parse_snapshot text).set_aside_status ≠ "" ∧
    (parse_snapshot text).naics ≠ "" ∧
    (parse_snapshot text).fob ≠ "" ∧
    (parse_snapshot text).inspection_acceptance ≠ "" ∧
    (parse_snapshot text).automated_award ≠ "" ∧
    (parse_snapshot text).buyer_name ≠ "" ∧
    (parse_snapshot text).buyer_email ≠ "" ∧
    (parse_snapshot text).buyer_phone ≠ "" := by
  have hsent : ("Not stated in RFQ" : String) ≠ "" := by decide
  unfold parse_snapshot
  dsimp only
  refine ⟨pyOrS_ne_empty _ _ hsent, ?_, ?_, pyOrS_ne_empty _ _ hsent,
    pyOrS_ne_empty _ _ hsent, ?_, ?_, pyOrS_ne_empty _ _ hsent,
    pyOrS_ne_empty _ _ hsent, pyOrS_ne_empty _ _ hsent, ?_,
    pyOrS_ne_empty _ _ hsent, pyOrS_ne_empty _ _ hsent, pyOrS_ne_empty _ _ hsent⟩
  · split_ifs
    · exact pyOrS_ne_empty _ _ hsent
    · decide
  · split_ifs <;> simp
  · exact combine_delivery_ne_empty _ _ _ (pyOrS_ne_empty _ _ hsent)
  · exact normalize_set_aside_ne_empty _ _ (pyOrS_ne_empty _ _ hsent)
  · split_ifs <;> decide

/-! Concrete scenario texts from the specification. -/

/-- Scenario B text: three procurement-history lines. -/
def scenBText : String := "10 EA $45.00\n12 EA $47.50\n8 EA $44.00"

/-- Counterexample for C4: on the scenario B text the three history
entries are (10, 45.00), (12, 47.50), (8, 44.00); the band centre
computed by the code is 45.00, the median of all three quantity-closest
entries (the focus window is at least three entries wide), whereas the
median of the two quantity-closest entries (quantities 10 and 8) is
44.50 — so the band is not centred on the latter. -/
theorem scenB_band_center_counterexample :
    _extract_procurement_history scenBText =
      [(10, ⟨45, 1⟩), (12, ⟨95, 2⟩), (8, ⟨44, 1⟩)] ∧
    bandTarget [⟨45, 1⟩, ⟨95, 2⟩, ⟨44, 1⟩]
      (some [(10, ⟨45, 1⟩), (12, ⟨95, 2⟩), (8, ⟨44, 1⟩)]) (some 10) = Frac.ofNat 45 ∧
    _median [⟨45, 1⟩, ⟨44, 1⟩] = ⟨89, 2⟩ ∧ Frac.ofNat 45 ≠ (⟨89, 2⟩ : Frac) := by
  refine ⟨by decide, by decide, by decide, by decide⟩

/-- C4 (amended): on the scenario B text parse_price_history returns
historical_low $44.00 and historical_high $47.50, and the recommended
band is the ±3.5 percent band centred on the median of the three
quantity-closest entries — all three of them, since the proximity window
takes at least three entries — namely $45.00, giving the band
$43.42 - $46.58. -/
theorem parse_price_history_scenB :
    (parse_price_history scenBText (some "10")).historical_low = "$44.00" ∧
    (parse_price_history scenBText (some "10")).historical_high = "$47.50" ∧
    focusPrices [⟨45, 1⟩, ⟨95, 2⟩, ⟨44, 1⟩]
      (some [(10, ⟨45, 1⟩), (12, ⟨95, 2⟩), (8, ⟨44, 1⟩)]) (some 10) =
      [⟨45, 1⟩, ⟨95, 2⟩, ⟨44, 1⟩] ∧
    bandTarget [⟨45, 1⟩, ⟨95, 2⟩, ⟨44, 1⟩]
      (some [(10, ⟨45, 1⟩), (12, ⟨95, 2⟩), (8, ⟨44, 1⟩)]) (some 10) =
      _median [⟨45, 1⟩, ⟨95, 2⟩, ⟨44, 1⟩] ∧
    (parse_price_history scenBText (some "10")).recommended_bid_price =
      "$43.42 - $46.58" := by
  refine ⟨by decide, by decide, by decide, by decide, by decide⟩

/-- Scenario A text: identifier, quantity and cyber clause. -/
def scenAText : String := "RFQ SPE4A6-24-Q-1234\nQTY 25\nNIST SP 800-171"

/-- Counterexample for C8: on the scenario A text the identifier is
found only by the generic solicitation patterns (the structured
`1. REQUEST NO.` pattern does not match), so the identifier confidence is
"inferred", not "extracted" as claimed. -/
theorem scenA_confidence_counterexample :
    (parse_snapshot scenAText).rfq_number = "SPE4A6-24-Q-1234" ∧
    (parse_snapshot scenAText).rfq_id_confidence = "inferred" ∧
    (parse_snapshot scenAText).rfq_id_confidence ≠ "extracted" := by
  refine ⟨by decide, by decide, by decide⟩

/-- C8 (amended): on the scenario A text the cyber flag is set, the
quantity is extracted as "25", the score receives the small-quantity
bonus (+4 with its clause) and the cyber penalty (-7, final score
60 + 4 - 7 = 57 with both clauses in the rationale), and the identifier
confidence is "inferred". -/
theorem scenA_analysis :
    (parse_compliance_flags scenAText).cyber = true ∧
    (parse_snapshot scenAText).quantity = "25" ∧
    (parse_snapshot scenAText).rfq_id_confidence = "inferred" ∧
    qtyAdjust (parse_snapshot scenAText).quantity =
      (4, ["Manageable quantity supports quick delivery."]) ∧
    complianceAdjust (parse_compliance_flags scenAText) =
      (-7, ["Cyber clauses present; ensure SPRS/NIST readiness."]) ∧
    (compute_viability (parse_snapshot scenAText)
      (parse_price_history scenAText (some (parse_snapshot scenAText).quantity))
      (parse_compliance_flags scenAText)).score = 57 ∧
    containsSub (compute_viability (parse_snapshot scenAText)
      (parse_price_history scenAText (some (parse_snapshot scenAText).quantity))
      (parse_compliance_flags scenAText)).rationale
      "Manageable quantity supports quick delivery." = true ∧
    containsSub (compute_viability (parse_snapshot scenAText)
      (parse_price_history scenAText (some (parse_snapshot scenAText).quantity))
      (parse_compliance_flags scenAText)).rationale
      "Cyber clauses present; ensure SPRS/NIST readiness." = true := by
  refine ⟨by decide, by decide, by decide, by decide, by decide, by decide,
    by decide, by decide⟩

/-- The scenario C checklist: a blocking SPRS item and a non-blocking
packaging item. -/
def scenCChecklist : List NormItem :=
  [⟨"sprs_score",
    "Do you currently have a valid NIST SP 800-171 assessment posted in SPRS?", true⟩,
   ⟨"packaging",
    "Can your supplier comply with MIL-STD-129 and DLA packaging requirements?", false⟩]

/-- C3: evaluation of the session code on the two scenario C runs.  With
sprs_score answered YES and packaging NO, the completion outcome is the
plain checklist-complete summary listing both items — no upgraded
"BID — conditional" decision is ever emitted (the summary does not even
contain the substring "BID").  With sprs_score answered NO, the summary
again lists both items (not only the negative blocking one), merely
tagging the blocking NO with a marker. -/
theorem hold_completion_no_upgrade :
    ((let s0 := mkSession "RFQ-1" scenCChecklist
      let r1 := _handle_answer (some s0) "YES"
      (_handle_answer r1.1 "NO").2) = AnswerOutcome.completed
        ("✅ HOLD checklist complete for RFQ-1.\n1. Do you currently have a valid NIST SP 800-171 assessment posted in SPRS? — YES\n2. Can your supplier comply with MIL-STD-129 and DLA packaging requirements? — NO")) ∧
    containsSub
      ("✅ HOLD checklist complete for RFQ-1.\n1. Do you currently have a valid NIST SP 800-171 assessment posted in SPRS? — YES\n2. Can your supplier comply with MIL-STD-129 and DLA packaging requirements? — NO")
      "BID" = false ∧
    ((let s0 := mkSession "RFQ-1" scenCChecklist
      let r1 := _handle_answer (some s0) "NO"
      (_handle_answer r1.1 "YES").2) = AnswerOutcome.completed
        ("✅ HOLD checklist complete for RFQ-1.\n1. Do you currently have a valid NIST SP 800-171 assessment posted in SPRS? — NO (BLOCKS BID)\n2. Can your supplier comply with MIL-STD-129 and DLA packaging requirements? — YES")) := by
  refine ⟨by decide, by decide, by decide⟩
